import Mathlib

/-!
Verification of the catalog transaction layer (`src/catalog/src/transaction.rs`).

The `Transaction` object composes one versioned key/value table per catalog
object kind and exposes the domain operations (insert/rename/remove/update for
databases, schemas, roles, clusters, replicas, items, id allocators, ...).
The generic table overlay (`TableTransaction` from `mz_stash`) is not part of
the excerpt, so it is modelled from the specification of `VersionedTable`
(section 4.1 of the spec); everything in the `Transaction` layer itself is a
direct transcription of `transaction.rs`.

Machine integers (`u64`) are modelled as `Nat` together with the explicit
bound `u64Limit = 2 ^ 64`; `checked_add` is modelled by `checkedAddOne`.
Functions that can panic return a result type with an explicit `panic`
constructor; typed errors carry the transaction state at the point the error
was returned, so that "no mutation on error" claims are statable.
-/

set_option maxRecDepth 4000

namespace Catalog

/-- Identifier of a database: `DatabaseId` is either system- or user-scoped. -/
inductive DatabaseId where
  | System (n : Nat)
  | User (n : Nat)
deriving DecidableEq

/-- Identifier of a schema. -/
inductive SchemaId where
  | System (n : Nat)
  | User (n : Nat)
deriving DecidableEq

/-- Identifier of a role. -/
inductive RoleId where
  | System (n : Nat)
  | User (n : Nat)
  | Public
deriving DecidableEq

/-- Identifier of a cluster. -/
inductive ClusterId where
  | System (n : Nat)
  | User (n : Nat)
deriving DecidableEq

/-- Identifier of a cluster replica. -/
inductive ReplicaId where
  | System (n : Nat)
  | User (n : Nat)
deriving DecidableEq

/-- Identifier of a catalog item (`GlobalId`). -/
inductive GlobalId where
  | System (n : Nat)
  | User (n : Nat)
deriving DecidableEq

/-- Modelled from the spec: the textual rendering of a `GlobalId` used in
error messages that name ids (the `Display` implementation lives outside the
excerpt); system ids render with an `s` prefix, user ids with a `u` prefix. -/
def GlobalId.render : GlobalId → String
  | .System n => "s" ++ toString n
  | .User n => "u" ++ toString n

/-- Modelled from the spec: the textual rendering of a `ClusterId` used in
error messages (the `Display` implementation lives outside the excerpt). -/
def ClusterId.render : ClusterId → String
  | .System n => "s" ++ toString n
  | .User n => "u" ++ toString n

/-- Privileges entries are opaque payloads for this layer. -/
abbrev MzAclItem := Nat

/-- Role attributes are opaque payloads for this layer. -/
abbrev RoleAttributes := Nat

/-- Role membership is an opaque payload for this layer. -/
abbrev RoleMembership := Nat

/-- Role variables are an opaque payload for this layer. -/
abbrev RoleVars := Nat

/-- Replica configuration is an opaque payload for this layer. -/
abbrev ReplicaConfig := Nat

/-- Cluster variant: managed (opaque payload) or unmanaged. -/
inductive ClusterVariant where
  | Unmanaged
  | Managed (n : Nat)
deriving DecidableEq

/-- Cluster configuration. -/
structure ClusterConfig where
  variant : ClusterVariant
deriving DecidableEq

/-- `u64` values are modelled as `Nat` below this bound. -/
def u64Limit : Nat := 2 ^ 64

/-- `u64::checked_add(1)`: `none` exactly when the increment would overflow. -/
def checkedAddOne (n : Nat) : Option Nat :=
  if n + 1 < u64Limit then some (n + 1) else none

/-! ### Row key/value shapes, one pair per catalog object kind -/

/-- Key of the databases table. -/
structure DatabaseKey where
  id : DatabaseId
deriving DecidableEq

/-- Value of the databases table. -/
structure DatabaseValue where
  name : String
  owner_id : RoleId
  privileges : List MzAclItem
deriving DecidableEq

/-- Key of the schemas table. -/
structure SchemaKey where
  id : SchemaId
deriving DecidableEq

/-- Value of the schemas table. -/
structure SchemaValue where
  database_id : Option DatabaseId
  name : String
  owner_id : RoleId
  privileges : List MzAclItem
deriving DecidableEq

/-- Key of the items table. -/
structure ItemKey where
  gid : GlobalId
deriving DecidableEq

/-- Value of the items table. -/
structure ItemValue where
  schema_id : SchemaId
  name : String
  create_sql : String
  owner_id : RoleId
  privileges : List MzAclItem
deriving DecidableEq

/-- Key of the roles table. -/
structure RoleKey where
  id : RoleId
deriving DecidableEq

/-- Value of the roles table. -/
structure RoleValue where
  name : String
  attributes : RoleAttributes
  membership : RoleMembership
  vars : RoleVars
deriving DecidableEq

/-- Key of the clusters table. -/
structure ClusterKey where
  id : ClusterId
deriving DecidableEq

/-- Value of the clusters table. -/
structure ClusterValue where
  name : String
  linked_object_id : Option GlobalId
  owner_id : RoleId
  privileges : List MzAclItem
  config : ClusterConfig
deriving DecidableEq

/-- Key of the cluster replicas table. -/
structure ClusterReplicaKey where
  id : ReplicaId
deriving DecidableEq

/-- Value of the cluster replicas table. -/
structure ClusterReplicaValue where
  cluster_id : ClusterId
  name : String
  config : ReplicaConfig
  owner_id : RoleId
deriving DecidableEq

/-- Key of the introspection source index table: scoped by owning cluster. -/
structure ClusterIntrospectionSourceIndexKey where
  cluster_id : ClusterId
  name : String
deriving DecidableEq

/-- Value of the introspection source index table. -/
structure ClusterIntrospectionSourceIndexValue where
  index_id : Nat
deriving DecidableEq

/-- Key of the id allocator table: the allocator's namespace name. -/
structure IdAllocKey where
  name : String
deriving DecidableEq

/-- Value of the id allocator table: the next id to hand out (a `u64`). -/
structure IdAllocValue where
  next_id : Nat
deriving DecidableEq

/-- Key of the comments table. -/
structure CommentKey where
  object_id : Nat
  sub_component : Option Nat
deriving DecidableEq

/-- Value of the comments table. -/
structure CommentValue where
  comment : String
deriving DecidableEq

/-- Key of the configs table. -/
structure ConfigKey where
  key : String
deriving DecidableEq

/-- Value of the configs table. -/
structure ConfigValue where
  value : Nat
deriving DecidableEq

/-- Key of the settings table. -/
structure SettingKey where
  name : String
deriving DecidableEq

/-- Value of the settings table. -/
structure SettingValue where
  value : String
deriving DecidableEq

/-- Key of the timestamps table. -/
structure TimestampKey where
  id : String
deriving DecidableEq

/-- Value of the timestamps table. -/
structure TimestampValue where
  ts : Nat
deriving DecidableEq

/-- Key of the system object (gid) mapping table. -/
structure GidMappingKey where
  schema_name : String
  object_name : String
deriving DecidableEq

/-- Value of the system object (gid) mapping table. -/
structure GidMappingValue where
  id : Nat
  fingerprint : String
deriving DecidableEq

/-- Key of the system configurations table. -/
structure ServerConfigurationKey where
  name : String
deriving DecidableEq

/-- Value of the system configurations table. -/
structure ServerConfigurationValue where
  value : String
deriving DecidableEq

/-- Key of the default privileges table. -/
structure DefaultPrivilegesKey where
  role_id : RoleId
  database_id : Option DatabaseId
  schema_id : Option SchemaId
  object_type : Nat
  grantee : RoleId
deriving DecidableEq

/-- Value of the default privileges table. -/
structure DefaultPrivilegesValue where
  privileges : Nat
deriving DecidableEq

/-- Key of the system privileges table. -/
structure SystemPrivilegesKey where
  grantee : RoleId
  grantor : RoleId
deriving DecidableEq

/-- Value of the system privileges table. -/
structure SystemPrivilegesValue where
  acl_mode : Nat
deriving DecidableEq

/-! ### The versioned table overlay -/

/-- Modelled from the spec: the live contents of one `VersionedTable`
(`TableTransaction` in `mz_stash`, outside the excerpt), represented as the
materialized current state — the list of currently-live key/value rows.  The
well-formedness invariant of the underlying map (at most one row per key) is
assumed as a hypothesis where a theorem needs it. -/
structure Table (K V : Type) where
  rows : List (K × V)
deriving DecidableEq

namespace Table

/-- Modelled from the spec: `get(key)` returns the current live value for the
key, or none. -/
def get {K V : Type} [DecidableEq K] (t : Table K V) (k : K) : Option V :=
  match t.rows.find? (fun r => r.1 == k) with
  | some r => some r.2
  | none => none

/-- Modelled from the spec: `insert(key, value)` fails (returns `none`) if the
key already has a live value or the table's uniqueness predicate `conflicts`
holds against any currently-live value; otherwise records the new live row. -/
def insert {K V : Type} [DecidableEq K] (conflicts : V → V → Bool)
    (t : Table K V) (k : K) (v : V) : Option (Table K V) :=
  if t.rows.any (fun r => r.1 == k || conflicts r.2 v) then none
  else some ⟨t.rows ++ [(k, v)]⟩

/-- Modelled from the spec: `update(f)` replaces the value of every live row
where `f` returns `some`, and returns the number of rows touched. -/
def update {K V : Type} (t : Table K V) (f : K → V → Option V) :
    Nat × Table K V :=
  (t.rows.countP (fun r => (f r.1 r.2).isSome),
   ⟨t.rows.map (fun r => ((f r.1 r.2).map (fun v => (r.1, v))).getD r)⟩)

/-- Modelled from the spec: `set(key, value?)` unconditionally upserts or
deletes the row for the key, bypassing the uniqueness predicate, and returns
the prior live value. -/
def set {K V : Type} [DecidableEq K] (t : Table K V) (k : K) (v : Option V) :
    Option V × Table K V :=
  (t.get k,
   match v with
   | some v0 => ⟨t.rows.filter (fun r => !(r.1 == k)) ++ [(k, v0)]⟩
   | none => ⟨t.rows.filter (fun r => !(r.1 == k))⟩)

/-- Modelled from the spec: `delete(p)` removes every live row matching the
predicate and returns the removed rows. -/
def delete {K V : Type} (t : Table K V) (f : K → V → Bool) :
    List (K × V) × Table K V :=
  (t.rows.filter (fun r => f r.1 r.2), ⟨t.rows.filter (fun r => !(f r.1 r.2))⟩)

/-- The keys of the live rows. -/
def keys {K V : Type} (t : Table K V) : List K :=
  t.rows.map Prod.fst

end Table

/-! ### The uniqueness predicates installed by `Transaction::new` -/

/-- Uniqueness predicate of the databases table: two live rows conflict when
they have the same name. -/
def databaseConflicts (a b : DatabaseValue) : Bool :=
  a.name == b.name

/-- Uniqueness predicate of the schemas table: same owning database and same
name. -/
def schemaConflicts (a b : SchemaValue) : Bool :=
  a.database_id == b.database_id && a.name == b.name

/-- Uniqueness predicate of the items table: same owning schema and same
name. -/
def itemConflicts (a b : ItemValue) : Bool :=
  a.schema_id == b.schema_id && a.name == b.name

/-- Uniqueness predicate of the roles table: same name. -/
def roleConflicts (a b : RoleValue) : Bool :=
  a.name == b.name

/-- Uniqueness predicate of the clusters table: same name. -/
def clusterConflicts (a b : ClusterValue) : Bool :=
  a.name == b.name

/-- Uniqueness predicate of the cluster replicas table: same owning cluster
and same name. -/
def clusterReplicaConflicts (a b : ClusterReplicaValue) : Bool :=
  a.cluster_id == b.cluster_id && a.name == b.name

/-- Uniqueness predicate of the comments table: never conflicts. -/
def commentConflicts (_a _b : CommentValue) : Bool :=
  false

/-- Uniqueness predicate of the introspection source index table: never
conflicts. -/
def introspectionSourceConflicts
    (_a _b : ClusterIntrospectionSourceIndexValue) : Bool :=
  false

/-- Uniqueness predicate of the id allocator table: never conflicts. -/
def idAllocatorConflicts (_a _b : IdAllocValue) : Bool :=
  false

/-- Uniqueness predicate of the configs table: never conflicts. -/
def configConflicts (_a _b : ConfigValue) : Bool :=
  false

/-- Uniqueness predicate of the settings table: never conflicts. -/
def settingConflicts (_a _b : SettingValue) : Bool :=
  false

/-- Uniqueness predicate of the timestamps table: never conflicts. -/
def timestampConflicts (_a _b : TimestampValue) : Bool :=
  false

/-- Uniqueness predicate of the system object mapping table: never
conflicts. -/
def systemGidMappingConflicts (_a _b : GidMappingValue) : Bool :=
  false

/-- Uniqueness predicate of the system configurations table: never
conflicts. -/
def systemConfigurationConflicts (_a _b : ServerConfigurationValue) : Bool :=
  false

/-- Uniqueness predicate of the default privileges table: never conflicts. -/
def defaultPrivilegeConflicts (_a _b : DefaultPrivilegesValue) : Bool :=
  false

/-- Uniqueness predicate of the system privileges table: never conflicts. -/
def systemPrivilegeConflicts (_a _b : SystemPrivilegesValue) : Bool :=
  false

/-! ### The transaction state and result type -/

/-- The in-memory state of a catalog `Transaction`: one table per catalog
object kind, plus the two append-only event logs (which bypass the table
machinery). -/
structure Transaction where
  databases : Table DatabaseKey DatabaseValue
  schemas : Table SchemaKey SchemaValue
  items : Table ItemKey ItemValue
  comments : Table CommentKey CommentValue
  roles : Table RoleKey RoleValue
  clusters : Table ClusterKey ClusterValue
  cluster_replicas : Table ClusterReplicaKey ClusterReplicaValue
  introspection_sources :
    Table ClusterIntrospectionSourceIndexKey ClusterIntrospectionSourceIndexValue
  id_allocator : Table IdAllocKey IdAllocValue
  configs : Table ConfigKey ConfigValue
  settings : Table SettingKey SettingValue
  timestamps : Table TimestampKey TimestampValue
  system_gid_mapping : Table GidMappingKey GidMappingValue
  system_configurations : Table ServerConfigurationKey ServerConfigurationValue
  default_privileges : Table DefaultPrivilegesKey DefaultPrivilegesValue
  system_privileges : Table SystemPrivilegesKey SystemPrivilegesValue
  audit_log_updates : List Nat
  storage_usage_updates : List Nat
deriving DecidableEq

/-- The typed errors of the catalog layer (`SqlCatalogError` variants used by
`transaction.rs`). -/
inductive SqlCatalogError where
  | DatabaseAlreadyExists (name : String)
  | SchemaAlreadyExists (name : String)
  | RoleAlreadyExists (name : String)
  | ClusterAlreadyExists (name : String)
  | DuplicateReplica (replica : String) (cluster : String)
  | ItemAlreadyExists (id : GlobalId) (name : String)
  | TimelineAlreadyExists (name : String)
  | ConfigAlreadyExists (key : String)
  | IdAllocatorAlreadyExists (name : String)
  | IdExhaustion
  | UnknownDatabase (name : String)
  | UnknownSchema (name : String)
  | UnknownRole (name : String)
  | UnknownCluster (name : String)
  | UnknownClusterReplica (name : String)
  | UnknownItem (name : String)
  | FailedBuiltinSchemaMigration (detail : String)
deriving DecidableEq

/-- Outcome of one domain operation: a fatal panic, a typed error (carrying
the transaction state at the point the error was returned — operations may
have mutated some tables before failing), or success with a value and the new
state. -/
inductive TxnOut (α : Type) where
  | panic
  | err (e : SqlCatalogError) (t : Transaction)
  | ok (a : α) (t : Transaction)
deriving DecidableEq

/-- Allocator namespace name for database ids.  Modelled from the spec: the
constant's value lives outside the excerpt; only its distinctness matters. -/
def DATABASE_ID_ALLOC_KEY : String := "database"

/-- Allocator namespace name for schema ids (modelled from the spec). -/
def SCHEMA_ID_ALLOC_KEY : String := "schema"

/-- Allocator namespace name for user role ids (modelled from the spec). -/
def USER_ROLE_ID_ALLOC_KEY : String := "user_role"

/-- Allocator namespace name for system cluster ids (modelled from the
spec). -/
def SYSTEM_CLUSTER_ID_ALLOC_KEY : String := "system_cluster"

/-- Allocator namespace name for system replica ids (modelled from the
spec). -/
def SYSTEM_REPLICA_ID_ALLOC_KEY : String := "system_replica"

/-- The system role that owns builtin objects (modelled from the spec: the
value lives outside the excerpt). -/
def MZ_SYSTEM_ROLE_ID : RoleId := .System 1

/-! ### Domain operations of `Transaction` -/

namespace Transaction

/-- `Transaction::get_and_increment_id`: read `next_id` for the named
allocator (panicking if the row is missing), fail with `IdExhaustion` when
`next_id + 1` would overflow `u64`, otherwise store `next_id + 1` and return
the pre-increment value.  The `assert!(prev.is_some())` after the `set` is
modelled by the final `if`. -/
def get_and_increment_id (t : Transaction) (key : String) : TxnOut Nat :=
  match t.id_allocator.get ⟨key⟩ with
  | none => .panic
  | some v =>
    match checkedAddOne v.next_id with
    | none => .err .IdExhaustion t
    | some next_id =>
      let p := t.id_allocator.set ⟨key⟩ (some ⟨next_id⟩)
      if p.1.isSome then .ok v.next_id { t with id_allocator := p.2 }
      else .panic

/-- `Transaction::insert_database`: insert a database row, mapping a
uniqueness conflict to `DatabaseAlreadyExists`. -/
def insert_database (t : Transaction) (id : DatabaseId)
    (database_name : String) (owner_id : RoleId)
    (privileges : List MzAclItem) : TxnOut Unit :=
  match t.databases.insert databaseConflicts ⟨id⟩
      ⟨database_name, owner_id, privileges⟩ with
  | some tbl => .ok () { t with databases := tbl }
  | none => .err (.DatabaseAlreadyExists database_name) t

/-- `Transaction::insert_user_database`: allocate a user database id, then
insert the database row. -/
def insert_user_database (t : Transaction) (database_name : String)
    (owner_id : RoleId) (privileges : List MzAclItem) : TxnOut DatabaseId :=
  match t.get_and_increment_id DATABASE_ID_ALLOC_KEY with
  | .panic => .panic
  | .err e t1 => .err e t1
  | .ok id t1 =>
    match t1.insert_database (.User id) database_name owner_id privileges with
    | .panic => .panic
    | .err e t2 => .err e t2
    | .ok _ t2 => .ok (.User id) t2

/-- `Transaction::insert_schema`: insert a schema row, mapping a uniqueness
conflict to `SchemaAlreadyExists`. -/
def insert_schema (t : Transaction) (schema_id : SchemaId)
    (database_id : Option DatabaseId) (schema_name : String)
    (owner_id : RoleId) (privileges : List MzAclItem) : TxnOut Unit :=
  match t.schemas.insert schemaConflicts ⟨schema_id⟩
      ⟨database_id, schema_name, owner_id, privileges⟩ with
  | some tbl => .ok () { t with schemas := tbl }
  | none => .err (.SchemaAlreadyExists schema_name) t

/-- `Transaction::insert_user_schema`: allocate a user schema id, then insert
the schema row under the given database. -/
def insert_user_schema (t : Transaction) (database_id : DatabaseId)
    (schema_name : String) (owner_id : RoleId)
    (privileges : List MzAclItem) : TxnOut SchemaId :=
  match t.get_and_increment_id SCHEMA_ID_ALLOC_KEY with
  | .panic => .panic
  | .err e t1 => .err e t1
  | .ok id t1 =>
    match t1.insert_schema (.User id) (some database_id) schema_name owner_id
        privileges with
    | .panic => .panic
    | .err e t2 => .err e t2
    | .ok _ t2 => .ok (.User id) t2

/-- `Transaction::insert_role`: insert a role row, mapping a uniqueness
conflict to `RoleAlreadyExists`. -/
def insert_role (t : Transaction) (id : RoleId) (name : String)
    (attributes : RoleAttributes) (membership : RoleMembership)
    (vars : RoleVars) : TxnOut Unit :=
  match t.roles.insert roleConflicts ⟨id⟩
      ⟨name, attributes, membership, vars⟩ with
  | some tbl => .ok () { t with roles := tbl }
  | none => .err (.RoleAlreadyExists name) t

/-- `Transaction::insert_user_role`: allocate a user role id, then insert the
role row. -/
def insert_user_role (t : Transaction) (name : String)
    (attributes : RoleAttributes) (membership : RoleMembership)
    (vars : RoleVars) : TxnOut RoleId :=
  match t.get_and_increment_id USER_ROLE_ID_ALLOC_KEY with
  | .panic => .panic
  | .err e t1 => .err e t1
  | .ok id t1 =>
    match t1.insert_role (.User id) name attributes membership vars with
    | .panic => .panic
    | .err e t2 => .err e t2
    | .ok _ t2 => .ok (.User id) t2

end Transaction

/-- The introspection-source loop body of `Transaction::insert_cluster`: each
index id must be a system id (otherwise the code panics), and each insertion
into the introspection sources table is `expect`ed to succeed (a duplicate key
panics).  Returns the extended table, or `none` for a panic. -/
def insertIntroSources (cluster_id : ClusterId)
    (tbl : Table ClusterIntrospectionSourceIndexKey
      ClusterIntrospectionSourceIndexValue) :
    List (String × GlobalId) →
    Option (Table ClusterIntrospectionSourceIndexKey
      ClusterIntrospectionSourceIndexValue)
  | [] => some tbl
  | (name, gid) :: rest =>
    match gid with
    | .System index_id =>
      match tbl.insert introspectionSourceConflicts ⟨cluster_id, name⟩
          ⟨index_id⟩ with
      | some tbl1 => insertIntroSources cluster_id tbl1 rest
      | none => none
    | .User _ => none

namespace Transaction

/-- `Transaction::insert_cluster`: insert the cluster row (mapping a
uniqueness conflict to `ClusterAlreadyExists`), then insert the cluster's
introspection source index rows (panicking on a non-system index id or a
duplicate introspection row). -/
def insert_cluster (t : Transaction) (cluster_id : ClusterId)
    (cluster_name : String) (linked_object_id : Option GlobalId)
    (introspection_source_indexes : List (String × GlobalId))
    (owner_id : RoleId) (privileges : List MzAclItem)
    (config : ClusterConfig) : TxnOut Unit :=
  match t.clusters.insert clusterConflicts ⟨cluster_id⟩
      ⟨cluster_name, linked_object_id, owner_id, privileges, config⟩ with
  | none => .err (.ClusterAlreadyExists cluster_name) t
  | some ctbl =>
    match insertIntroSources cluster_id t.introspection_sources
        introspection_source_indexes with
    | none => .panic
    | some itbl =>
      .ok () { t with clusters := ctbl, introspection_sources := itbl }

/-- `Transaction::insert_user_cluster`: delegates to `insert_cluster`. -/
def insert_user_cluster (t : Transaction) (cluster_id : ClusterId)
    (cluster_name : String) (linked_object_id : Option GlobalId)
    (introspection_source_indexes : List (String × GlobalId))
    (owner_id : RoleId) (privileges : List MzAclItem)
    (config : ClusterConfig) : TxnOut Unit :=
  t.insert_cluster cluster_id cluster_name linked_object_id
    introspection_source_indexes owner_id privileges config

/-- `Transaction::insert_system_cluster`: delegates to `insert_cluster` with
no linked object and the system role as owner. -/
def insert_system_cluster (t : Transaction) (cluster_id : ClusterId)
    (cluster_name : String)
    (introspection_source_indexes : List (String × GlobalId))
    (privileges : List MzAclItem) (config : ClusterConfig) : TxnOut Unit :=
  t.insert_cluster cluster_id cluster_name none
    introspection_source_indexes MZ_SYSTEM_ROLE_ID privileges config

/-- `Transaction::insert_cluster_replica`: insert the replica row; on a
uniqueness rejection, look up the owning cluster (panicking when it is not
live) and return `DuplicateReplica` carrying the cluster's name. -/
def insert_cluster_replica (t : Transaction) (cluster_id : ClusterId)
    (replica_id : ReplicaId) (replica_name : String)
    (config : ReplicaConfig) (owner_id : RoleId) : TxnOut Unit :=
  match t.cluster_replicas.insert clusterReplicaConflicts ⟨replica_id⟩
      ⟨cluster_id, replica_name, config, owner_id⟩ with
  | some tbl => .ok () { t with cluster_replicas := tbl }
  | none =>
    match t.clusters.get ⟨cluster_id⟩ with
    | some cluster => .err (.DuplicateReplica replica_name cluster.name) t
    | none => .panic

/-- `Transaction::rename_cluster`: update the single cluster row with the
given id; zero matches is `UnknownCluster`, more than one match panics. -/
def rename_cluster (t : Transaction) (cluster_id : ClusterId)
    (cluster_name : String) (cluster_to_name : String) : TxnOut Unit :=
  let p := t.clusters.update (fun k v =>
    if k = ⟨cluster_id⟩ then
      some ⟨cluster_to_name, v.linked_object_id, v.owner_id, v.privileges,
        v.config⟩
    else none)
  match p.1 with
  | 0 => .err (.UnknownCluster cluster_name) { t with clusters := p.2 }
  | 1 => .ok () { t with clusters := p.2 }
  | _ => .panic

/-- `Transaction::remove_cluster`: delete the cluster row by id; when found,
cascade-delete the cluster's replicas and introspection source rows.  The
`assert_eq!(deleted.len(), 1)` is modelled by the length check. -/
def remove_cluster (t : Transaction) (id : ClusterId) : TxnOut Unit :=
  let pc := t.clusters.delete (fun k _ => k.id == id)
  if pc.1.isEmpty then
    .err (.UnknownCluster (ClusterId.render id)) { t with clusters := pc.2 }
  else if pc.1.length = 1 then
    let pr := t.cluster_replicas.delete (fun _ v => v.cluster_id == id)
    let pi := t.introspection_sources.delete (fun k _ => k.cluster_id == id)
    .ok () { t with clusters := pc.2, cluster_replicas := pr.2,
                    introspection_sources := pi.2 }
  else .panic

/-- `Transaction::insert_item`: insert an item row, mapping a uniqueness
conflict to `ItemAlreadyExists`. -/
def insert_item (t : Transaction) (id : GlobalId) (schema_id : SchemaId)
    (item_name : String) (create_sql : String) (owner_id : RoleId)
    (privileges : List MzAclItem) : TxnOut Unit :=
  match t.items.insert itemConflicts ⟨id⟩
      ⟨schema_id, item_name, create_sql, owner_id, privileges⟩ with
  | some tbl => .ok () { t with items := tbl }
  | none => .err (.ItemAlreadyExists id item_name) t

/-- `Transaction::insert_timestamp`: insert a timeline timestamp row, mapping
a uniqueness conflict to `TimelineAlreadyExists`. -/
def insert_timestamp (t : Transaction) (timeline : String) (ts : Nat) :
    TxnOut Unit :=
  match t.timestamps.insert timestampConflicts ⟨timeline⟩ ⟨ts⟩ with
  | some tbl => .ok () { t with timestamps := tbl }
  | none => .err (.TimelineAlreadyExists timeline) t

/-- `Transaction::insert_id_allocator`: insert an allocator row, mapping a
uniqueness conflict to `IdAllocatorAlreadyExists`. -/
def insert_id_allocator (t : Transaction) (name : String) (next_id : Nat) :
    TxnOut Unit :=
  match t.id_allocator.insert idAllocatorConflicts ⟨name⟩ ⟨next_id⟩ with
  | some tbl => .ok () { t with id_allocator := tbl }
  | none => .err (.IdAllocatorAlreadyExists name) t

/-- `Transaction::insert_config`: insert a config row, mapping a uniqueness
conflict to `ConfigAlreadyExists`. -/
def insert_config (t : Transaction) (key : String) (value : Nat) :
    TxnOut Unit :=
  match t.configs.insert configConflicts ⟨key⟩ ⟨value⟩ with
  | some tbl => .ok () { t with configs := tbl }
  | none => .err (.ConfigAlreadyExists key) t

/-- `Transaction::remove_items`: bulk-delete the item rows whose ids are in
the given set (represented as the list of the set's elements in iteration
order); succeed only when the number of deleted rows equals the size of the
set, otherwise return `UnknownItem` naming the ids in the set that are absent
from the post-deletion items table. -/
def remove_items (t : Transaction) (ids : List GlobalId) : TxnOut Unit :=
  let p := t.items.delete (fun k _ => ids.contains k.gid)
  let t1 : Transaction := { t with items := p.2 }
  if p.1.length = ids.length then .ok () t1
  else
    let item_gids := p.2.rows.map (fun r => r.1.gid)
    let unknown := ids.filter (fun i => !(item_gids.contains i))
    .err (.UnknownItem (String.intercalate ", " (unknown.map GlobalId.render)))
      t1

end Transaction

/-- A catalog item as handed to `update_item`/`update_items` (`Item` from the
objects module, outside the excerpt; its shape is the spec's
`Item{id} -> {schema_id, name, create_sql, owner, privileges}` row). -/
structure Item where
  id : GlobalId
  schema_id : SchemaId
  name : String
  create_sql : String
  owner_id : RoleId
  privileges : List MzAclItem
deriving DecidableEq

/-- Modelled from the spec: `Item::into_key_value` splits an item into its
key and value rows (the `DurableType` impl lives outside the excerpt). -/
def Item.into_key_value (i : Item) : ItemKey × ItemValue :=
  (⟨i.id⟩, ⟨i.schema_id, i.name, i.create_sql, i.owner_id, i.privileges⟩)

namespace Transaction

/-- `Transaction::update_item`: replace the item row with the given id.  The
closure's `assert_eq!(item.schema_id, v.schema_id)` on every touched row and
the trailing `assert!(n <= 1)` are modelled as panics; zero matches is
`UnknownItem`. -/
def update_item (t : Transaction) (id : GlobalId) (item : Item) :
    TxnOut Unit :=
  if t.items.rows.any (fun r =>
      r.1.gid == id && !(item.schema_id == r.2.schema_id)) then .panic
  else
    let p := t.items.update (fun k _v =>
      if k.gid = id then some (item.into_key_value).2 else none)
    match p.1 with
    | 0 => .err (.UnknownItem (GlobalId.render id)) { t with items := p.2 }
    | 1 => .ok () { t with items := p.2 }
    | _ => .panic

/-- `Transaction::update_items`: replace every item row whose id is a key of
the given map (represented as an association list); the schema-id assertion
applies to every touched row; succeed only when the number of touched rows
equals the size of the map, otherwise return `UnknownItem` naming the map
keys absent from the post-update items table. -/
def update_items (t : Transaction) (items : List (GlobalId × Item)) :
    TxnOut Unit :=
  if t.items.rows.any (fun r =>
      (((items.lookup r.1.gid).map
        (fun item => !(item.schema_id == r.2.schema_id))).getD false))
    then .panic
  else
    let p := t.items.update (fun k _v =>
      (items.lookup k.gid).map (fun item => (item.into_key_value).2))
    if p.1 = items.length then .ok () { t with items := p.2 }
    else
      let update_ids := items.map (fun i => i.1)
      let item_ids := p.2.rows.map (fun r => r.1.gid)
      let unknown := update_ids.filter (fun i => !(item_ids.contains i))
      .err (.UnknownItem
          (String.intercalate ", " (unknown.map GlobalId.render)))
        { t with items := p.2 }

end Transaction

/-- `n` consecutive calls to `get_and_increment_id` for the same allocator
name, collecting the returned ids in order.  Used to state the id
monotonicity property. -/
def iterAllocCalls (key : String) : Nat → Transaction → TxnOut (List Nat)
  | 0, t => .ok [] t
  | n + 1, t =>
    match t.get_and_increment_id key with
    | .panic => .panic
    | .err e t1 => .err e t1
    | .ok id t1 =>
      match iterAllocCalls key n t1 with
      | .panic => .panic
      | .err e t2 => .err e t2
      | .ok ids t2 => .ok (id :: ids) t2

/-! ### Builtin migration helpers -/

/-- A builtin cluster definition (`BUILTIN_CLUSTERS` entries; the static data
lives outside the excerpt, so the helpers are parameterized by the list). -/
structure BuiltinCluster where
  name : String
  privileges : List MzAclItem
deriving DecidableEq

/-- A builtin cluster replica definition (`BUILTIN_CLUSTER_REPLICAS`
entries). -/
structure BuiltinClusterReplica where
  cluster_name : String
  name : String
deriving DecidableEq

/-- The loop of `add_new_builtin_clusters_migration`: `cluster_names` is the
set of live cluster names computed once before the loop; each builtin cluster
absent from it gets a freshly allocated system cluster id and is inserted as
a system cluster with no introspection sources and the unmanaged variant. -/
def addBuiltinClustersLoop (cluster_names : List String) :
    List BuiltinCluster → Transaction → TxnOut Unit
  | [], t => .ok () t
  | bc :: rest, t =>
    if cluster_names.contains bc.name then
      addBuiltinClustersLoop cluster_names rest t
    else
      match t.get_and_increment_id SYSTEM_CLUSTER_ID_ALLOC_KEY with
      | .panic => .panic
      | .err e t1 => .err e t1
      | .ok id t1 =>
        match t1.insert_system_cluster (.System id) bc.name [] bc.privileges
            ⟨.Unmanaged⟩ with
        | .panic => .panic
        | .err e t2 => .err e t2
        | .ok _ t2 => addBuiltinClustersLoop cluster_names rest t2

/-- `add_new_builtin_clusters_migration`: insert every builtin cluster whose
name is not already the name of a live cluster. -/
def add_new_builtin_clusters_migration (builtins : List BuiltinCluster)
    (t : Transaction) : TxnOut Unit :=
  addBuiltinClustersLoop (t.clusters.rows.map (fun r => r.2.name)) builtins t

/-- The live replica names of one cluster, as used by the replica migration's
precomputed `replicas` map. -/
def replicaNamesFor (t : Transaction) (cid : ClusterId) : List String :=
  (t.cluster_replicas.rows.filter (fun r => r.2.cluster_id == cid)).map
    (fun r => r.2.name)

/-- The loop of `add_new_builtin_cluster_replicas_migration`: `lookup` is the
cluster-name-to-id map and `replicas` the per-cluster live replica names, both
computed once before the loop; a missing cluster for a builtin replica panics
(`expect`), and a builtin replica absent from its cluster's replica names gets
a freshly allocated system replica id and is inserted. -/
def addBuiltinReplicasLoop (lookup : List (String × ClusterId))
    (replicas : ClusterId → List String) (config : ReplicaConfig) :
    List BuiltinClusterReplica → Transaction → TxnOut Unit
  | [], t => .ok () t
  | br :: rest, t =>
    match lookup.lookup br.cluster_name with
    | none => .panic
    | some cluster_id =>
      if (replicas cluster_id).contains br.name then
        addBuiltinReplicasLoop lookup replicas config rest t
      else
        match t.get_and_increment_id SYSTEM_REPLICA_ID_ALLOC_KEY with
        | .panic => .panic
        | .err e t1 => .err e t1
        | .ok id t1 =>
          match t1.insert_cluster_replica cluster_id (.System id) br.name
              config MZ_SYSTEM_ROLE_ID with
          | .panic => .panic
          | .err e t2 => .err e t2
          | .ok _ t2 => addBuiltinReplicasLoop lookup replicas config rest t2

/-- `add_new_builtin_cluster_replicas_migration`: insert every builtin
replica absent from its (live, looked-up-by-name) cluster, with the replica
config derived from the bootstrap args (opaque here). -/
def add_new_builtin_cluster_replicas_migration
    (builtins : List BuiltinClusterReplica) (config : ReplicaConfig)
    (t : Transaction) : TxnOut Unit :=
  addBuiltinReplicasLoop (t.clusters.rows.map (fun r => (r.2.name, r.1.id)))
    (replicaNamesFor t) config builtins t

/-! ### General list helper lemmas -/

theorem length_filter_add_length_filter_not {α : Type} (l : List α)
    (p : α → Bool) :
    (l.filter p).length + (l.filter (fun a => !(p a))).length = l.length := by
  induction l with
  | nil => rfl
  | cons a l ih =>
    cases h : p a <;> simp [List.filter_cons, h] <;> omega

theorem map_eq_self_of_eq_id {α : Type} (l : List α) (f : α → α)
    (h : ∀ a ∈ l, f a = a) : l.map f = l := by
  induction l with
  | nil => rfl
  | cons a l ih =>
    simp only [List.map_cons, h a (List.mem_cons_self a l)]
    rw [ih (fun x hx => h x (List.mem_cons_of_mem a hx))]

theorem nodup_keys_at_most_one {K V : Type} [DecidableEq K]
    (l : List (K × V)) (c : K) (hnd : (l.map Prod.fst).Nodup) :
    l.countP (fun r => r.1 == c) ≤ 1 := by
  induction l with
  | nil => simp [List.countP_nil]
  | cons a l ih =>
    simp only [List.map_cons, List.nodup_cons] at hnd
    by_cases h : a.1 = c
    · have hz : l.countP (fun r => r.1 == c) = 0 := by
        apply List.countP_eq_zero.mpr
        intro r hr
        simp only [beq_iff_eq]
        intro hc
        exact hnd.1 (by
          rw [h, ← hc]
          exact List.mem_map_of_mem Prod.fst hr)
      simp [List.countP_cons, h, hz]
    · have := ih hnd.2
      simp only [List.countP_cons, beq_iff_eq, h]
      simpa using this

theorem nodup_keys_exists_countP_eq_one {K V : Type} [DecidableEq K]
    (l : List (K × V)) (c : K) (hnd : (l.map Prod.fst).Nodup)
    (hex : ∃ r ∈ l, r.1 = c) :
    l.countP (fun r => r.1 == c) = 1 := by
  obtain ⟨r, hr, hrc⟩ := hex
  have hle := nodup_keys_at_most_one l c hnd
  have hpos : 0 < l.countP (fun r => r.1 == c) := by
    apply List.countP_pos_iff.mpr
    exact ⟨r, hr, by simp [hrc]⟩
  omega

/-! ### Helper lemmas about the table overlay -/

theorem find?_filter_append_key {K V : Type} [DecidableEq K]
    (l : List (K × V)) (k : K) (v : V) :
    (l.filter (fun r => !(r.1 == k)) ++ [(k, v)]).find?
      (fun r => r.1 == k) = some (k, v) := by
  induction l with
  | nil => simp [List.find?]
  | cons a l ih =>
    by_cases h : a.1 = k
    · simpa [List.filter_cons, h] using ih
    · simpa [List.filter_cons, List.find?_cons, h] using ih

theorem Table.get_set_same {K V : Type} [DecidableEq K]
    (t : Table K V) (k : K) (v : V) :
    ((t.set k (some v)).2).get k = some v := by
  simp only [Table.set, Table.get]
  rw [find?_filter_append_key]

theorem gai_ok (t : Transaction) (key : String) (v : IdAllocValue)
    (hget : t.id_allocator.get ⟨key⟩ = some v)
    (hlt : v.next_id + 1 < u64Limit) :
    t.get_and_increment_id key =
      .ok v.next_id { t with id_allocator :=
        (t.id_allocator.set ⟨key⟩ (some ⟨v.next_id + 1⟩)).2 } := by
  unfold Transaction.get_and_increment_id
  rw [hget]
  simp only [checkedAddOne, if_pos hlt, Table.set, hget, Option.isSome_some,
    if_pos]

theorem gai_exhaust (t : Transaction) (key : String) (v : IdAllocValue)
    (hget : t.id_allocator.get ⟨key⟩ = some v)
    (hge : ¬ (v.next_id + 1 < u64Limit)) :
    t.get_and_increment_id key = .err .IdExhaustion t := by
  unfold Transaction.get_and_increment_id
  rw [hget]
  simp only [checkedAddOne, if_neg hge]

theorem gai_missing (t : Transaction) (key : String)
    (hget : t.id_allocator.get ⟨key⟩ = none) :
    t.get_and_increment_id key = .panic := by
  unfold Transaction.get_and_increment_id
  rw [hget]

theorem iterAlloc_ok (key : String) (n : Nat) :
    ∀ (t : Transaction) (nv : Nat),
      t.id_allocator.get ⟨key⟩ = some ⟨nv⟩ → nv + n < u64Limit →
      ∃ t1, iterAllocCalls key n t = .ok (List.range' nv n) t1 ∧
        t1.id_allocator.get ⟨key⟩ = some ⟨nv + n⟩ := by
  induction n with
  | zero =>
    intro t nv hget _
    exact ⟨t, by simp [iterAllocCalls], by simpa using hget⟩
  | succ n ih =>
    intro t nv hget hlt
    have h1 : nv + 1 < u64Limit := by omega
    have hg := gai_ok t key ⟨nv⟩ hget h1
    have hget1 : Table.get
        ((t.id_allocator.set ⟨key⟩ (some ⟨nv + 1⟩)).2) ⟨key⟩ =
        some ⟨nv + 1⟩ := Table.get_set_same t.id_allocator ⟨key⟩ ⟨nv + 1⟩
    obtain ⟨t2, hiter, hget2⟩ :=
      ih { t with id_allocator := (t.id_allocator.set ⟨key⟩
            (some ⟨nv + 1⟩)).2 } (nv + 1) hget1 (by omega)
    refine ⟨t2, ?_, ?_⟩
    · simp only [iterAllocCalls, hg, hiter, List.range'_succ]
    · have : nv + 1 + n = nv + (n + 1) := by omega
      rwa [this] at hget2

end Catalog


namespace Catalog

/-! ### Example states used by the concrete witnesses -/

/-- A transaction state with every table empty. -/
def emptyT : Transaction :=
  { databases := ⟨[]⟩, schemas := ⟨[]⟩, items := ⟨[]⟩, comments := ⟨[]⟩,
    roles := ⟨[]⟩, clusters := ⟨[]⟩, cluster_replicas := ⟨[]⟩,
    introspection_sources := ⟨[]⟩, id_allocator := ⟨[]⟩, configs := ⟨[]⟩,
    settings := ⟨[]⟩, timestamps := ⟨[]⟩, system_gid_mapping := ⟨[]⟩,
    system_configurations := ⟨[]⟩, default_privileges := ⟨[]⟩,
    system_privileges := ⟨[]⟩, audit_log_updates := [],
    storage_usage_updates := [] }

/-- A state holding one allocator row `"a" -> 5`. -/
def allocT : Transaction :=
  { emptyT with id_allocator := ⟨[(⟨"a"⟩, ⟨5⟩)]⟩ }

/-! ### C1: `get_and_increment_id` -/

/-- C1: for every transaction and allocator name whose allocator row exists,
`get_and_increment_id` returns the pre-increment `next_id` and stores
`next_id + 1`; `n` consecutive successful calls return the strictly
increasing consecutive ids `next_id, next_id + 1, ...`; an increment that
would overflow `u64` returns `IdExhaustion` with the state unchanged; a
missing allocator row panics. -/
theorem get_and_increment_id_spec :
    (∀ (t : Transaction) (key : String) (nv : Nat),
      t.id_allocator.get ⟨key⟩ = some ⟨nv⟩ → nv + 1 < u64Limit →
      t.get_and_increment_id key =
        .ok nv { t with id_allocator :=
          (t.id_allocator.set ⟨key⟩ (some ⟨nv + 1⟩)).2 } ∧
      (∀ t1 : Transaction,
        t1 = { t with id_allocator :=
          (t.id_allocator.set ⟨key⟩ (some ⟨nv + 1⟩)).2 } →
        t1.id_allocator.get ⟨key⟩ = some ⟨nv + 1⟩)) ∧
    (∀ (t : Transaction) (key : String) (nv : Nat),
      t.id_allocator.get ⟨key⟩ = some ⟨nv⟩ → ¬ (nv + 1 < u64Limit) →
      t.get_and_increment_id key = .err .IdExhaustion t) ∧
    (∀ (t : Transaction) (key : String),
      t.id_allocator.get ⟨key⟩ = none →
      t.get_and_increment_id key = .panic) ∧
    (∀ (t : Transaction) (key : String) (nv n : Nat),
      t.id_allocator.get ⟨key⟩ = some ⟨nv⟩ → nv + n < u64Limit →
      ∃ t1, iterAllocCalls key n t = .ok (List.range' nv n) t1 ∧
        t1.id_allocator.get ⟨key⟩ = some ⟨nv + n⟩) := by
  refine ⟨?_, ?_, ?_, ?_⟩
  · intro t key nv hget hlt
    refine ⟨gai_ok t key ⟨nv⟩ hget hlt, ?_⟩
    intro t1 ht1
    rw [ht1]
    exact Table.get_set_same t.id_allocator ⟨key⟩ ⟨nv + 1⟩
  · intro t key nv hget hge
    exact gai_exhaust t key ⟨nv⟩ hget hge
  · intro t key hget
    exact gai_missing t key hget
  · intro t key nv n hget hlt
    exact iterAlloc_ok key n t nv hget hlt

/-- Witness for C1 at a concrete state: the allocator row `"a" -> 5` yields
id 5 and stores 6; three consecutive calls yield `[5, 6, 7]`; an allocator at
`2 ^ 64 - 1` yields `IdExhaustion` unchanged; a missing row panics. -/
theorem get_and_increment_id_spec_witness :
    (allocT.get_and_increment_id "a" =
      .ok 5 { allocT with id_allocator :=
        (allocT.id_allocator.set ⟨"a"⟩ (some ⟨6⟩)).2 }) ∧
    (∃ t1, iterAllocCalls "a" 3 allocT = .ok (List.range' 5 3) t1 ∧
      t1.id_allocator.get ⟨"a"⟩ = some ⟨8⟩) ∧
    (Transaction.get_and_increment_id
      { emptyT with id_allocator := ⟨[(⟨"a"⟩, ⟨u64Limit - 1⟩)]⟩ } "a" =
      .err .IdExhaustion
        { emptyT with id_allocator := ⟨[(⟨"a"⟩, ⟨u64Limit - 1⟩)]⟩ }) ∧
    (emptyT.get_and_increment_id "a" = .panic) :=
  ⟨(get_and_increment_id_spec.1 allocT "a" 5 (by decide) (by decide)).1,
   get_and_increment_id_spec.2.2.2 allocT "a" 5 3 (by decide) (by decide),
   get_and_increment_id_spec.2.1
     { emptyT with id_allocator := ⟨[(⟨"a"⟩, ⟨u64Limit - 1⟩)]⟩ } "a"
     (u64Limit - 1) (by decide) (by decide),
   get_and_increment_id_spec.2.2.1 emptyT "a" (by decide)⟩

/-! ### C2: the uniqueness predicates installed by `Transaction::new` -/

/-- C2: the conflict predicates enforce exactly the scoped uniqueness rules —
databases conflict iff equal names; schemas iff equal owning database and
name; items iff equal owning schema and name; roles iff equal names; clusters
iff equal names; cluster replicas iff equal owning cluster and name; and the
comment, introspection-source, id-allocator, config, setting, timestamp,
system-mapping, system-configuration, default-privilege and system-privilege
tables never report a conflict. -/
theorem conflict_predicates_spec :
    (∀ a b : DatabaseValue, databaseConflicts a b = true ↔ a.name = b.name) ∧
    (∀ a b : SchemaValue, schemaConflicts a b = true ↔
      a.database_id = b.database_id ∧ a.name = b.name) ∧
    (∀ a b : ItemValue, itemConflicts a b = true ↔
      a.schema_id = b.schema_id ∧ a.name = b.name) ∧
    (∀ a b : RoleValue, roleConflicts a b = true ↔ a.name = b.name) ∧
    (∀ a b : ClusterValue, clusterConflicts a b = true ↔ a.name = b.name) ∧
    (∀ a b : ClusterReplicaValue, clusterReplicaConflicts a b = true ↔
      a.cluster_id = b.cluster_id ∧ a.name = b.name) ∧
    (∀ a b : CommentValue, commentConflicts a b = false) ∧
    (∀ a b : ClusterIntrospectionSourceIndexValue,
      introspectionSourceConflicts a b = false) ∧
    (∀ a b : IdAllocValue, idAllocatorConflicts a b = false) ∧
    (∀ a b : ConfigValue, configConflicts a b = false) ∧
    (∀ a b : SettingValue, settingConflicts a b = false) ∧
    (∀ a b : TimestampValue, timestampConflicts a b = false) ∧
    (∀ a b : GidMappingValue, systemGidMappingConflicts a b = false) ∧
    (∀ a b : ServerConfigurationValue,
      systemConfigurationConflicts a b = false) ∧
    (∀ a b : DefaultPrivilegesValue,
      defaultPrivilegeConflicts a b = false) ∧
    (∀ a b : SystemPrivilegesValue,
      systemPrivilegeConflicts a b = false) := by
  refine ⟨?_, ?_, ?_, ?_, ?_, ?_, ?_, ?_, ?_, ?_, ?_, ?_, ?_, ?_, ?_, ?_⟩ <;>
    intro a b <;>
    simp [databaseConflicts, schemaConflicts, itemConflicts, roleConflicts,
      clusterConflicts, clusterReplicaConflicts, commentConflicts,
      introspectionSourceConflicts, idAllocatorConflicts, configConflicts,
      settingConflicts, timestampConflicts, systemGidMappingConflicts,
      systemConfigurationConflicts, defaultPrivilegeConflicts,
      systemPrivilegeConflicts]

end Catalog

namespace Catalog

/-! ### C3: what a conflict error leaves behind -/

theorem insert_database_err (t : Transaction) (id : DatabaseId)
    (name : String) (o : RoleId) (p : List MzAclItem)
    (e : SqlCatalogError) (t' : Transaction)
    (h : t.insert_database id name o p = .err e t') :
    t' = t ∧ e = .DatabaseAlreadyExists name := by
  unfold Transaction.insert_database at h
  cases hi : t.databases.insert databaseConflicts ⟨id⟩ ⟨name, o, p⟩ <;>
    rw [hi] at h <;> simp_all

theorem insert_schema_err (t : Transaction) (id : SchemaId)
    (d : Option DatabaseId) (name : String) (o : RoleId)
    (p : List MzAclItem) (e : SqlCatalogError) (t' : Transaction)
    (h : t.insert_schema id d name o p = .err e t') :
    t' = t ∧ e = .SchemaAlreadyExists name := by
  unfold Transaction.insert_schema at h
  cases hi : t.schemas.insert schemaConflicts ⟨id⟩ ⟨d, name, o, p⟩ <;>
    rw [hi] at h <;> simp_all

theorem insert_role_err (t : Transaction) (id : RoleId) (name : String)
    (a : RoleAttributes) (m : RoleMembership) (v : RoleVars)
    (e : SqlCatalogError) (t' : Transaction)
    (h : t.insert_role id name a m v = .err e t') :
    t' = t ∧ e = .RoleAlreadyExists name := by
  unfold Transaction.insert_role at h
  cases hi : t.roles.insert roleConflicts ⟨id⟩ ⟨name, a, m, v⟩ <;>
    rw [hi] at h <;> simp_all

theorem insert_cluster_err (t : Transaction) (cid : ClusterId)
    (name : String) (lid : Option GlobalId)
    (isi : List (String × GlobalId)) (o : RoleId) (p : List MzAclItem)
    (cfg : ClusterConfig) (e : SqlCatalogError) (t' : Transaction)
    (h : t.insert_cluster cid name lid isi o p cfg = .err e t') :
    t' = t ∧ e = .ClusterAlreadyExists name := by
  unfold Transaction.insert_cluster at h
  cases hi : t.clusters.insert clusterConflicts ⟨cid⟩ ⟨name, lid, o, p, cfg⟩
  · rw [hi] at h
    simp_all
  · rw [hi] at h
    cases hj : insertIntroSources cid t.introspection_sources isi <;>
      rw [hj] at h <;> simp_all

theorem insert_cluster_replica_err (t : Transaction) (cid : ClusterId)
    (rid : ReplicaId) (name : String) (cfg : ReplicaConfig) (o : RoleId)
    (e : SqlCatalogError) (t' : Transaction)
    (h : t.insert_cluster_replica cid rid name cfg o = .err e t') :
    t' = t := by
  unfold Transaction.insert_cluster_replica at h
  cases hi : t.cluster_replicas.insert clusterReplicaConflicts ⟨rid⟩
      ⟨cid, name, cfg, o⟩
  · rw [hi] at h
    cases hj : t.clusters.get ⟨cid⟩ <;> rw [hj] at h <;> simp_all
  · rw [hi] at h
    simp_all

theorem insert_item_err (t : Transaction) (id : GlobalId) (sid : SchemaId)
    (name : String) (sql : String) (o : RoleId) (p : List MzAclItem)
    (e : SqlCatalogError) (t' : Transaction)
    (h : t.insert_item id sid name sql o p = .err e t') :
    t' = t ∧ e = .ItemAlreadyExists id name := by
  unfold Transaction.insert_item at h
  cases hi : t.items.insert itemConflicts ⟨id⟩ ⟨sid, name, sql, o, p⟩ <;>
    rw [hi] at h <;> simp_all

theorem insert_timestamp_err (t : Transaction) (tl : String) (ts : Nat)
    (e : SqlCatalogError) (t' : Transaction)
    (h : t.insert_timestamp tl ts = .err e t') :
    t' = t ∧ e = .TimelineAlreadyExists tl := by
  unfold Transaction.insert_timestamp at h
  cases hi : t.timestamps.insert timestampConflicts ⟨tl⟩ ⟨ts⟩ <;>
    rw [hi] at h <;> simp_all

theorem insert_config_err (t : Transaction) (k : String) (v : Nat)
    (e : SqlCatalogError) (t' : Transaction)
    (h : t.insert_config k v = .err e t') :
    t' = t ∧ e = .ConfigAlreadyExists k := by
  unfold Transaction.insert_config at h
  cases hi : t.configs.insert configConflicts ⟨k⟩ ⟨v⟩ <;>
    rw [hi] at h <;> simp_all

theorem insert_id_allocator_err (t : Transaction) (name : String)
    (nv : Nat) (e : SqlCatalogError) (t' : Transaction)
    (h : t.insert_id_allocator name nv = .err e t') :
    t' = t ∧ e = .IdAllocatorAlreadyExists name := by
  unfold Transaction.insert_id_allocator at h
  cases hi : t.id_allocator.insert idAllocatorConflicts ⟨name⟩ ⟨nv⟩ <;>
    rw [hi] at h <;> simp_all

end Catalog

namespace Catalog

theorem insert_user_database_conflict (t : Transaction) (name : String)
    (o : RoleId) (p : List MzAclItem) (nv : Nat)
    (hget : t.id_allocator.get ⟨DATABASE_ID_ALLOC_KEY⟩ = some ⟨nv⟩)
    (hlt : nv + 1 < u64Limit) (e : SqlCatalogError) (t' : Transaction)
    (h : t.insert_user_database name o p = .err e t') :
    e = .DatabaseAlreadyExists name ∧
    t' = { t with id_allocator :=
      (t.id_allocator.set ⟨DATABASE_ID_ALLOC_KEY⟩ (some ⟨nv + 1⟩)).2 } := by
  unfold Transaction.insert_user_database at h
  rw [gai_ok t DATABASE_ID_ALLOC_KEY ⟨nv⟩ hget hlt] at h
  dsimp only at h
  cases hi : Transaction.insert_database
      { t with id_allocator :=
        (t.id_allocator.set ⟨DATABASE_ID_ALLOC_KEY⟩ (some ⟨nv + 1⟩)).2 }
      (.User nv) name o p
  · rw [hi] at h
    simp_all
  case err e2 t2 =>
    rw [hi] at h
    obtain ⟨h1, h2⟩ := insert_database_err _ _ _ _ _ _ _ hi
    simp only [TxnOut.err.injEq] at h
    exact ⟨h.1 ▸ h2, h.2 ▸ h1⟩
  · rw [hi] at h
    simp_all

theorem insert_user_schema_conflict (t : Transaction) (d : DatabaseId)
    (name : String) (o : RoleId) (p : List MzAclItem) (nv : Nat)
    (hget : t.id_allocator.get ⟨SCHEMA_ID_ALLOC_KEY⟩ = some ⟨nv⟩)
    (hlt : nv + 1 < u64Limit) (e : SqlCatalogError) (t' : Transaction)
    (h : t.insert_user_schema d name o p = .err e t') :
    e = .SchemaAlreadyExists name ∧
    t' = { t with id_allocator :=
      (t.id_allocator.set ⟨SCHEMA_ID_ALLOC_KEY⟩ (some ⟨nv + 1⟩)).2 } := by
  unfold Transaction.insert_user_schema at h
  rw [gai_ok t SCHEMA_ID_ALLOC_KEY ⟨nv⟩ hget hlt] at h
  dsimp only at h
  cases hi : Transaction.insert_schema
      { t with id_allocator :=
        (t.id_allocator.set ⟨SCHEMA_ID_ALLOC_KEY⟩ (some ⟨nv + 1⟩)).2 }
      (.User nv) (some d) name o p
  · rw [hi] at h
    simp_all
  case err e2 t2 =>
    rw [hi] at h
    obtain ⟨h1, h2⟩ := insert_schema_err _ _ _ _ _ _ _ _ hi
    simp only [TxnOut.err.injEq] at h
    exact ⟨h.1 ▸ h2, h.2 ▸ h1⟩
  · rw [hi] at h
    simp_all

theorem insert_user_role_conflict (t : Transaction) (name : String)
    (a : RoleAttributes) (m : RoleMembership) (v : RoleVars) (nv : Nat)
    (hget : t.id_allocator.get ⟨USER_ROLE_ID_ALLOC_KEY⟩ = some ⟨nv⟩)
    (hlt : nv + 1 < u64Limit) (e : SqlCatalogError) (t' : Transaction)
    (h : t.insert_user_role name a m v = .err e t') :
    e = .RoleAlreadyExists name ∧
    t' = { t with id_allocator :=
      (t.id_allocator.set ⟨USER_ROLE_ID_ALLOC_KEY⟩ (some ⟨nv + 1⟩)).2 } := by
  unfold Transaction.insert_user_role at h
  rw [gai_ok t USER_ROLE_ID_ALLOC_KEY ⟨nv⟩ hget hlt] at h
  dsimp only at h
  cases hi : Transaction.insert_role
      { t with id_allocator :=
        (t.id_allocator.set ⟨USER_ROLE_ID_ALLOC_KEY⟩ (some ⟨nv + 1⟩)).2 }
      (.User nv) name a m v
  · rw [hi] at h
    simp_all
  case err e2 t2 =>
    rw [hi] at h
    obtain ⟨h1, h2⟩ := insert_role_err _ _ _ _ _ _ _ _ hi
    simp only [TxnOut.err.injEq] at h
    exact ⟨h.1 ▸ h2, h.2 ▸ h1⟩
  · rw [hi] at h
    simp_all

end Catalog

namespace Catalog

/-- The state used by the C3 counterexample and witness: one live database
named `"d"` and the database id allocator at 5. -/
def c3T : Transaction :=
  { emptyT with
    databases := ⟨[(⟨.User 0⟩, ⟨"d", .User 7, []⟩)]⟩,
    id_allocator := ⟨[(⟨"database"⟩, ⟨5⟩)]⟩ }

/-- The state after `insert_user_database` fails on `c3T`: the allocator row
advanced to 6, everything else untouched. -/
def c3T' : Transaction :=
  { c3T with id_allocator := ⟨[(⟨"database"⟩, ⟨6⟩)]⟩ }

/-- C3 counterexample: on `c3T` (database `"d"` live, allocator at 5),
`insert_user_database "d"` fails with `DatabaseAlreadyExists` — a
conflict/uniqueness error — yet the transaction state after the failed call
differs from the state before it: the id-allocator row was incremented by the
`get_and_increment_id` call that precedes the failing insert. -/
theorem insert_user_database_mutates_on_conflict :
    c3T.insert_user_database "d" (.User 7) [] =
      .err (.DatabaseAlreadyExists "d") c3T' ∧
    c3T' ≠ c3T ∧ c3T'.id_allocator ≠ c3T.id_allocator := by
  refine ⟨by decide, by decide, by decide⟩

/-- C3 (amended): the direct insert operations (`insert_database`,
`insert_schema`, `insert_role`, `insert_cluster`, `insert_cluster_replica`,
`insert_item`, `insert_timestamp`, `insert_config`, `insert_id_allocator`)
leave the transaction state exactly as it was whenever they return a typed
error, so the transaction remains usable; the user-level wrappers
(`insert_user_database`, `insert_user_schema`, `insert_user_role`) increment
the relevant id-allocator row before attempting the insert, so when they
return a conflict error every table except the id-allocator table is
unchanged while the allocator's `next_id` has been incremented. -/
theorem conflict_error_state_spec :
    (∀ (t : Transaction) (id : DatabaseId) (name : String) (o : RoleId)
      (p : List MzAclItem) (e : SqlCatalogError) (t' : Transaction),
      t.insert_database id name o p = .err e t' →
      t' = t ∧ e = .DatabaseAlreadyExists name) ∧
    (∀ (t : Transaction) (id : SchemaId) (d : Option DatabaseId)
      (name : String) (o : RoleId) (p : List MzAclItem)
      (e : SqlCatalogError) (t' : Transaction),
      t.insert_schema id d name o p = .err e t' →
      t' = t ∧ e = .SchemaAlreadyExists name) ∧
    (∀ (t : Transaction) (id : RoleId) (name : String) (a : RoleAttributes)
      (m : RoleMembership) (v : RoleVars) (e : SqlCatalogError)
      (t' : Transaction),
      t.insert_role id name a m v = .err e t' →
      t' = t ∧ e = .RoleAlreadyExists name) ∧
    (∀ (t : Transaction) (cid : ClusterId) (name : String)
      (lid : Option GlobalId) (isi : List (String × GlobalId)) (o : RoleId)
      (p : List MzAclItem) (cfg : ClusterConfig) (e : SqlCatalogError)
      (t' : Transaction),
      t.insert_cluster cid name lid isi o p cfg = .err e t' →
      t' = t ∧ e = .ClusterAlreadyExists name) ∧
    (∀ (t : Transaction) (cid : ClusterId) (rid : ReplicaId) (name : String)
      (cfg : ReplicaConfig) (o : RoleId) (e : SqlCatalogError)
      (t' : Transaction),
      t.insert_cluster_replica cid rid name cfg o = .err e t' → t' = t) ∧
    (∀ (t : Transaction) (id : GlobalId) (sid : SchemaId)
      (name sql : String) (o : RoleId) (p : List MzAclItem)
      (e : SqlCatalogError) (t' : Transaction),
      t.insert_item id sid name sql o p = .err e t' →
      t' = t ∧ e = .ItemAlreadyExists id name) ∧
    (∀ (t : Transaction) (tl : String) (ts : Nat) (e : SqlCatalogError)
      (t' : Transaction),
      t.insert_timestamp tl ts = .err e t' →
      t' = t ∧ e = .TimelineAlreadyExists tl) ∧
    (∀ (t : Transaction) (k : String) (v : Nat) (e : SqlCatalogError)
      (t' : Transaction),
      t.insert_config k v = .err e t' →
      t' = t ∧ e = .ConfigAlreadyExists k) ∧
    (∀ (t : Transaction) (name : String) (nv : Nat) (e : SqlCatalogError)
      (t' : Transaction),
      t.insert_id_allocator name nv = .err e t' →
      t' = t ∧ e = .IdAllocatorAlreadyExists name) ∧
    (∀ (t : Transaction) (name : String) (o : RoleId) (p : List MzAclItem)
      (nv : Nat),
      t.id_allocator.get ⟨DATABASE_ID_ALLOC_KEY⟩ = some ⟨nv⟩ →
      nv + 1 < u64Limit →
      ∀ (e : SqlCatalogError) (t' : Transaction),
      t.insert_user_database name o p = .err e t' →
      e = .DatabaseAlreadyExists name ∧
      t' = { t with id_allocator :=
        (t.id_allocator.set ⟨DATABASE_ID_ALLOC_KEY⟩ (some ⟨nv + 1⟩)).2 }) ∧
    (∀ (t : Transaction) (d : DatabaseId) (name : String) (o : RoleId)
      (p : List MzAclItem) (nv : Nat),
      t.id_allocator.get ⟨SCHEMA_ID_ALLOC_KEY⟩ = some ⟨nv⟩ →
      nv + 1 < u64Limit →
      ∀ (e : SqlCatalogError) (t' : Transaction),
      t.insert_user_schema d name o p = .err e t' →
      e = .SchemaAlreadyExists name ∧
      t' = { t with id_allocator :=
        (t.id_allocator.set ⟨SCHEMA_ID_ALLOC_KEY⟩ (some ⟨nv + 1⟩)).2 }) ∧
    (∀ (t : Transaction) (name : String) (a : RoleAttributes)
      (m : RoleMembership) (v : RoleVars) (nv : Nat),
      t.id_allocator.get ⟨USER_ROLE_ID_ALLOC_KEY⟩ = some ⟨nv⟩ →
      nv + 1 < u64Limit →
      ∀ (e : SqlCatalogError) (t' : Transaction),
      t.insert_user_role name a m v = .err e t' →
      e = .RoleAlreadyExists name ∧
      t' = { t with id_allocator :=
        (t.id_allocator.set ⟨USER_ROLE_ID_ALLOC_KEY⟩ (some ⟨nv + 1⟩)).2 }) := by
  refine ⟨?_, ?_, ?_, ?_, ?_, ?_, ?_, ?_, ?_, ?_, ?_, ?_⟩
  · intro t id name o p e t' h
    exact insert_database_err t id name o p e t' h
  · intro t id d name o p e t' h
    exact insert_schema_err t id d name o p e t' h
  · intro t id name a m v e t' h
    exact insert_role_err t id name a m v e t' h
  · intro t cid name lid isi o p cfg e t' h
    exact insert_cluster_err t cid name lid isi o p cfg e t' h
  · intro t cid rid name cfg o e t' h
    exact insert_cluster_replica_err t cid rid name cfg o e t' h
  · intro t id sid name sql o p e t' h
    exact insert_item_err t id sid name sql o p e t' h
  · intro t tl ts e t' h
    exact insert_timestamp_err t tl ts e t' h
  · intro t k v e t' h
    exact insert_config_err t k v e t' h
  · intro t name nv e t' h
    exact insert_id_allocator_err t name nv e t' h
  · intro t name o p nv h1 h2 e t' h
    exact insert_user_database_conflict t name o p nv h1 h2 e t' h
  · intro t d name o p nv h1 h2 e t' h
    exact insert_user_schema_conflict t d name o p nv h1 h2 e t' h
  · intro t name a m v nv h1 h2 e t' h
    exact insert_user_role_conflict t name a m v nv h1 h2 e t' h

/-- Witness for C3 at concrete states: a direct `insert_database` of the
duplicate name `"d"` on `c3T` errs and leaves the state equal to `c3T`, and
`insert_user_database` of the same name errs with the allocator advanced. -/
theorem conflict_error_state_spec_witness :
    (c3T = c3T ∧
      (SqlCatalogError.DatabaseAlreadyExists "d") =
        .DatabaseAlreadyExists "d") ∧
    ((SqlCatalogError.DatabaseAlreadyExists "d") =
        .DatabaseAlreadyExists "d" ∧
      c3T' = { c3T with id_allocator :=
        (c3T.id_allocator.set ⟨DATABASE_ID_ALLOC_KEY⟩ (some ⟨5 + 1⟩)).2 }) :=
  ⟨conflict_error_state_spec.1 c3T (.User 9) "d" (.User 7) []
      (.DatabaseAlreadyExists "d") c3T (by decide),
   (conflict_error_state_spec.2.2.2.2.2.2.2.2.2.1 c3T "d" (.User 7) [] 5
      (by decide) (by decide) (.DatabaseAlreadyExists "d") c3T' (by decide))⟩

end Catalog

namespace Catalog

/-! ### C4: `remove_cluster` cascade -/

theorem remove_cluster_unknown (t : Transaction) (id : ClusterId)
    (hnone : ∀ r ∈ t.clusters.rows, r.1.id ≠ id) :
    t.remove_cluster id = .err (.UnknownCluster (ClusterId.render id)) t := by
  unfold Transaction.remove_cluster
  have h1 : t.clusters.rows.filter (fun r => r.1.id == id) = [] :=
    List.filter_eq_nil_iff.mpr (by
      intro r hr
      simpa using hnone r hr)
  have h2 : t.clusters.rows.filter (fun r => !(r.1.id == id)) =
      t.clusters.rows :=
    List.filter_eq_self.mpr (by
      intro r hr
      simpa using hnone r hr)
  simp only [Table.delete, h1, h2, List.isEmpty_nil, if_pos]

theorem remove_cluster_found (t : Transaction) (id : ClusterId)
    (hnd : (t.clusters.rows.map Prod.fst).Nodup)
    (hex : ∃ r ∈ t.clusters.rows, r.1.id = id) :
    t.remove_cluster id =
      .ok () { t with
        clusters := ⟨t.clusters.rows.filter (fun r => !(r.1.id == id))⟩,
        cluster_replicas := ⟨t.cluster_replicas.rows.filter
          (fun r => !(r.2.cluster_id == id))⟩,
        introspection_sources := ⟨t.introspection_sources.rows.filter
          (fun r => !(r.1.cluster_id == id))⟩ } ∧
    (t.clusters.rows.filter (fun r => r.1.id == id)).length = 1 := by
  have hpred : (fun (r : ClusterKey × ClusterValue) => r.1.id == id) =
      (fun r => r.1 == (⟨id⟩ : ClusterKey)) := by
    funext r
    rcases r with ⟨⟨i⟩, v⟩
    by_cases h : i = id <;> simp [h]
  have hlen : (t.clusters.rows.filter (fun r => r.1.id == id)).length = 1 := by
    rw [← List.countP_eq_length_filter, hpred]
    apply nodup_keys_exists_countP_eq_one t.clusters.rows (⟨id⟩ : ClusterKey)
      hnd
    obtain ⟨r, hr, hid⟩ := hex
    exact ⟨r, hr, by
      rcases r with ⟨⟨i⟩, v⟩
      simpa using hid⟩
  refine ⟨?_, hlen⟩
  unfold Transaction.remove_cluster
  have hne : ¬ ((t.clusters.rows.filter
      (fun r => r.1.id == id)).isEmpty = true) := by
    intro hempty
    rw [List.isEmpty_iff] at hempty
    rw [hempty] at hlen
    simp at hlen
  simp only [Table.delete, if_neg hne, if_pos hlen]

/-- C4: `remove_cluster` on an id with no live cluster row returns
`UnknownCluster` and changes nothing; on a live id it removes the cluster row
together with every live replica row whose value's `cluster_id` matches and
every live introspection-source row whose key's `cluster_id` matches, all in
the same transaction, so exactly `k + m + 1` rows are removed for a cluster
owning `k` replicas and `m` introspection-source rows. -/
theorem remove_cluster_spec :
    (∀ (t : Transaction) (id : ClusterId),
      (∀ r ∈ t.clusters.rows, r.1.id ≠ id) →
      t.remove_cluster id =
        .err (.UnknownCluster (ClusterId.render id)) t) ∧
    (∀ (t : Transaction) (id : ClusterId),
      (t.clusters.rows.map Prod.fst).Nodup →
      (∃ r ∈ t.clusters.rows, r.1.id = id) →
      t.remove_cluster id =
        .ok () { t with
          clusters := ⟨t.clusters.rows.filter (fun r => !(r.1.id == id))⟩,
          cluster_replicas := ⟨t.cluster_replicas.rows.filter
            (fun r => !(r.2.cluster_id == id))⟩,
          introspection_sources := ⟨t.introspection_sources.rows.filter
            (fun r => !(r.1.cluster_id == id))⟩ } ∧
      t.clusters.rows.length + t.cluster_replicas.rows.length +
          t.introspection_sources.rows.length =
        ((t.clusters.rows.filter (fun r => !(r.1.id == id))).length +
         (t.cluster_replicas.rows.filter
           (fun r => !(r.2.cluster_id == id))).length +
         (t.introspection_sources.rows.filter
           (fun r => !(r.1.cluster_id == id))).length) +
        ((t.cluster_replicas.rows.filter
           (fun r => r.2.cluster_id == id)).length +
         (t.introspection_sources.rows.filter
           (fun r => r.1.cluster_id == id)).length + 1)) := by
  refine ⟨remove_cluster_unknown, ?_⟩
  intro t id hnd hex
  obtain ⟨hok, hlen⟩ := remove_cluster_found t id hnd hex
  refine ⟨hok, ?_⟩
  have e1 := length_filter_add_length_filter_not t.clusters.rows
    (fun r => r.1.id == id)
  have e2 := length_filter_add_length_filter_not t.cluster_replicas.rows
    (fun r => r.2.cluster_id == id)
  have e3 := length_filter_add_length_filter_not t.introspection_sources.rows
    (fun r => r.1.cluster_id == id)
  omega

/-- The state used by the C4 witness: cluster `User 1` (named `"c"`) owns two
replicas and one introspection-source row; an unrelated cluster `User 2` owns
one replica and one introspection-source row. -/
def c4T : Transaction :=
  { emptyT with
    clusters := ⟨[(⟨.User 1⟩, ⟨"c", none, .User 7, [], ⟨.Unmanaged⟩⟩),
                  (⟨.User 2⟩, ⟨"c2", none, .User 7, [], ⟨.Unmanaged⟩⟩)]⟩,
    cluster_replicas :=
      ⟨[(⟨.User 1⟩, ⟨.User 1, "r1", 0, .User 7⟩),
        (⟨.User 2⟩, ⟨.User 1, "r2", 0, .User 7⟩),
        (⟨.User 3⟩, ⟨.User 2, "r3", 0, .User 7⟩)]⟩,
    introspection_sources := ⟨[(⟨.User 1, "log"⟩, ⟨3⟩),
                               (⟨.User 2, "log"⟩, ⟨4⟩)]⟩ }

/-- Witness for C4 at concrete states: removing `User 1` from `c4T` removes
one cluster row, two replica rows and one introspection row (2 + 1 + 1 of 7
rows remain), and removing an absent id from the empty state errs. -/
theorem remove_cluster_spec_witness :
    (Transaction.remove_cluster emptyT (.User 5) =
      .err (.UnknownCluster (ClusterId.render (.User 5))) emptyT) ∧
    (c4T.remove_cluster (.User 1) =
      .ok () { c4T with
        clusters := ⟨c4T.clusters.rows.filter
          (fun r => !(r.1.id == .User 1))⟩,
        cluster_replicas := ⟨c4T.cluster_replicas.rows.filter
          (fun r => !(r.2.cluster_id == .User 1))⟩,
        introspection_sources := ⟨c4T.introspection_sources.rows.filter
          (fun r => !(r.1.cluster_id == .User 1))⟩ } ∧
      c4T.clusters.rows.length + c4T.cluster_replicas.rows.length +
          c4T.introspection_sources.rows.length =
        ((c4T.clusters.rows.filter (fun r => !(r.1.id == .User 1))).length +
         (c4T.cluster_replicas.rows.filter
           (fun r => !(r.2.cluster_id == .User 1))).length +
         (c4T.introspection_sources.rows.filter
           (fun r => !(r.1.cluster_id == .User 1))).length) +
        ((c4T.cluster_replicas.rows.filter
           (fun r => r.2.cluster_id == .User 1)).length +
         (c4T.introspection_sources.rows.filter
           (fun r => r.1.cluster_id == .User 1)).length + 1)) :=
  ⟨remove_cluster_spec.1 emptyT (.User 5) (by decide),
   remove_cluster_spec.2 c4T (.User 1) (by decide) (by decide)⟩

end Catalog

namespace Catalog

/-! ### C6: `rename_cluster` -/

theorem rename_cluster_unknown (t : Transaction) (id : ClusterId)
    (nm nm' : String)
    (hnone : ∀ r ∈ t.clusters.rows, r.1 ≠ (⟨id⟩ : ClusterKey)) :
    t.rename_cluster id nm nm' = .err (.UnknownCluster nm) t := by
  unfold Transaction.rename_cluster
  have hcnt : t.clusters.rows.countP (fun r =>
      (if r.1 = (⟨id⟩ : ClusterKey) then
         some (⟨nm', r.2.linked_object_id, r.2.owner_id,
           r.2.privileges, r.2.config⟩ : ClusterValue)
       else none).isSome) = 0 := by
    apply List.countP_eq_zero.mpr
    intro r hr
    simp [if_neg (hnone r hr)]
  have hmap : t.clusters.rows.map (fun r =>
      (((if r.1 = (⟨id⟩ : ClusterKey) then
           some (⟨nm', r.2.linked_object_id, r.2.owner_id,
             r.2.privileges, r.2.config⟩ : ClusterValue)
         else none).map (fun v => (r.1, v))).getD r)) = t.clusters.rows := by
    apply map_eq_self_of_eq_id
    intro r hr
    simp [if_neg (hnone r hr)]
  simp only [Table.update, hcnt, hmap]

theorem rename_cluster_found (t : Transaction) (id : ClusterId)
    (nm nm' : String) (hnd : (t.clusters.rows.map Prod.fst).Nodup)
    (hex : ∃ r ∈ t.clusters.rows, r.1 = (⟨id⟩ : ClusterKey)) :
    t.rename_cluster id nm nm' =
      .ok () { t with clusters := ⟨t.clusters.rows.map (fun r =>
        if r.1 = (⟨id⟩ : ClusterKey) then
          (r.1, (⟨nm', r.2.linked_object_id, r.2.owner_id,
            r.2.privileges, r.2.config⟩ : ClusterValue))
        else r)⟩ } := by
  unfold Transaction.rename_cluster
  have hfun : (fun (r : ClusterKey × ClusterValue) =>
      (if r.1 = (⟨id⟩ : ClusterKey) then
         some (⟨nm', r.2.linked_object_id, r.2.owner_id,
           r.2.privileges, r.2.config⟩ : ClusterValue)
       else none).isSome) = (fun r => r.1 == (⟨id⟩ : ClusterKey)) := by
    funext r
    by_cases h : r.1 = (⟨id⟩ : ClusterKey) <;> simp [h]
  have hmapfun : (fun (r : ClusterKey × ClusterValue) =>
      (((if r.1 = (⟨id⟩ : ClusterKey) then
           some (⟨nm', r.2.linked_object_id, r.2.owner_id,
             r.2.privileges, r.2.config⟩ : ClusterValue)
         else none).map (fun v => (r.1, v))).getD r)) =
      (fun r => if r.1 = (⟨id⟩ : ClusterKey)
                then (r.1, (⟨nm', r.2.linked_object_id, r.2.owner_id,
                  r.2.privileges, r.2.config⟩ : ClusterValue)) else r) := by
    funext r
    by_cases h : r.1 = (⟨id⟩ : ClusterKey) <;> simp [h]
  have hcnt := nodup_keys_exists_countP_eq_one t.clusters.rows
    (⟨id⟩ : ClusterKey) hnd hex
  simp only [Table.update, hfun, hmapfun, hcnt]

theorem rename_cluster_multi (t : Transaction) (id : ClusterId)
    (nm nm' : String)
    (hge : 2 ≤ t.clusters.rows.countP
      (fun r => r.1 == (⟨id⟩ : ClusterKey))) :
    t.rename_cluster id nm nm' = .panic := by
  unfold Transaction.rename_cluster
  have hfun : (fun (r : ClusterKey × ClusterValue) =>
      (if r.1 = (⟨id⟩ : ClusterKey) then
         some (⟨nm', r.2.linked_object_id, r.2.owner_id,
           r.2.privileges, r.2.config⟩ : ClusterValue)
       else none).isSome) = (fun r => r.1 == (⟨id⟩ : ClusterKey)) := by
    funext r
    by_cases h : r.1 = (⟨id⟩ : ClusterKey) <;> simp [h]
  simp only [Table.update, hfun]
  obtain ⟨m, hm⟩ : ∃ m, t.clusters.rows.countP
      (fun r => r.1 == (⟨id⟩ : ClusterKey)) = m + 2 :=
    ⟨t.clusters.rows.countP (fun r => r.1 == (⟨id⟩ : ClusterKey)) - 2,
     by omega⟩
  rw [hm]
  rfl

/-- C6: `rename_cluster` updates at most one row — an id with no live
cluster row yields `UnknownCluster` and changes nothing; an id held by
exactly one live row gets exactly that row's name replaced (other fields and
other tables untouched); more than one matching row panics instead of
returning an error. -/
theorem rename_cluster_spec :
    (∀ (t : Transaction) (id : ClusterId) (nm nm' : String),
      (∀ r ∈ t.clusters.rows, r.1 ≠ (⟨id⟩ : ClusterKey)) →
      t.rename_cluster id nm nm' = .err (.UnknownCluster nm) t) ∧
    (∀ (t : Transaction) (id : ClusterId) (nm nm' : String),
      (t.clusters.rows.map Prod.fst).Nodup →
      (∃ r ∈ t.clusters.rows, r.1 = (⟨id⟩ : ClusterKey)) →
      t.rename_cluster id nm nm' =
        .ok () { t with clusters := ⟨t.clusters.rows.map (fun r =>
          if r.1 = (⟨id⟩ : ClusterKey) then
            (r.1, (⟨nm', r.2.linked_object_id, r.2.owner_id,
              r.2.privileges, r.2.config⟩ : ClusterValue))
          else r)⟩ }) ∧
    (∀ (t : Transaction) (id : ClusterId) (nm nm' : String),
      2 ≤ t.clusters.rows.countP (fun r => r.1 == (⟨id⟩ : ClusterKey)) →
      t.rename_cluster id nm nm' = .panic) :=
  ⟨rename_cluster_unknown, rename_cluster_found, rename_cluster_multi⟩

/-- Witness for C6 at concrete states: renaming the absent `User 5` in the
empty state errs; renaming `User 1` in `c4T` rewrites exactly that row's
name; a (corrupt) table holding two rows keyed `User 1` panics. -/
theorem rename_cluster_spec_witness :
    (Transaction.rename_cluster emptyT (.User 5) "c" "c9" =
      .err (.UnknownCluster "c") emptyT) ∧
    (c4T.rename_cluster (.User 1) "c" "c9" =
      .ok () { c4T with clusters := ⟨c4T.clusters.rows.map (fun r =>
        if r.1 = (⟨.User 1⟩ : ClusterKey) then
          (r.1, (⟨"c9", r.2.linked_object_id, r.2.owner_id,
            r.2.privileges, r.2.config⟩ : ClusterValue))
        else r)⟩ }) ∧
    (Transaction.rename_cluster
      { emptyT with clusters :=
        ⟨[(⟨.User 1⟩, ⟨"c", none, .User 7, [], ⟨.Unmanaged⟩⟩),
          (⟨.User 1⟩, ⟨"cc", none, .User 7, [], ⟨.Unmanaged⟩⟩)]⟩ }
      (.User 1) "c" "c9" = .panic) :=
  ⟨rename_cluster_spec.1 emptyT (.User 5) "c" "c9" (by decide),
   rename_cluster_spec.2.1 c4T (.User 1) "c" "c9" (by decide) (by decide),
   rename_cluster_spec.2.2
     { emptyT with clusters :=
       ⟨[(⟨.User 1⟩, ⟨"c", none, .User 7, [], ⟨.Unmanaged⟩⟩),
         (⟨.User 1⟩, ⟨"cc", none, .User 7, [], ⟨.Unmanaged⟩⟩)]⟩ }
     (.User 1) "c" "c9" (by decide)⟩

end Catalog

namespace Catalog

/-! ### C8 and C9: `update_item` / `update_items` -/

theorem update_item_unknown (t : Transaction) (id : GlobalId) (item : Item)
    (hnone : ∀ r ∈ t.items.rows, r.1.gid ≠ id) :
    t.update_item id item = .err (.UnknownItem (GlobalId.render id)) t := by
  unfold Transaction.update_item
  have hany : t.items.rows.any (fun r =>
      r.1.gid == id && !(item.schema_id == r.2.schema_id)) = false := by
    apply List.any_eq_false.mpr
    intro r hr
    simp [hnone r hr]
  rw [hany]
  have hcnt : t.items.rows.countP (fun r =>
      (if r.1.gid = id then some (item.into_key_value).2
       else none).isSome) = 0 := by
    apply List.countP_eq_zero.mpr
    intro r hr
    simp [if_neg (hnone r hr)]
  have hmap : t.items.rows.map (fun r =>
      (((if r.1.gid = id then some (item.into_key_value).2
         else none).map (fun v => (r.1, v))).getD r)) = t.items.rows := by
    apply map_eq_self_of_eq_id
    intro r hr
    simp [if_neg (hnone r hr)]
  simp only [Bool.false_eq_true, if_false, Table.update, hcnt, hmap]

theorem update_item_found (t : Transaction) (id : GlobalId) (item : Item)
    (hnd : (t.items.rows.map Prod.fst).Nodup)
    (hex : ∃ r ∈ t.items.rows, r.1.gid = id)
    (hschema : ∀ r ∈ t.items.rows, r.1.gid = id →
      item.schema_id = r.2.schema_id) :
    t.update_item id item =
      .ok () { t with items := ⟨t.items.rows.map (fun r =>
        if r.1.gid = id then (r.1, (item.into_key_value).2) else r)⟩ } := by
  unfold Transaction.update_item
  have hany : t.items.rows.any (fun r =>
      r.1.gid == id && !(item.schema_id == r.2.schema_id)) = false := by
    apply List.any_eq_false.mpr
    intro r hr
    by_cases h : r.1.gid = id
    · simp [h, hschema r hr h]
    · simp [h]
  rw [hany]
  have hfun : (fun (r : ItemKey × ItemValue) =>
      (if r.1.gid = id then some (item.into_key_value).2
       else none).isSome) = (fun r => r.1 == (⟨id⟩ : ItemKey)) := by
    funext r
    rcases r with ⟨⟨g⟩, v⟩
    by_cases h : g = id <;> simp [h]
  have hmapfun : (fun (r : ItemKey × ItemValue) =>
      (((if r.1.gid = id then some (item.into_key_value).2
         else none).map (fun v => (r.1, v))).getD r)) =
      (fun r => if r.1.gid = id then (r.1, (item.into_key_value).2)
                else r) := by
    funext r
    by_cases h : r.1.gid = id <;> simp [h]
  have hcnt := nodup_keys_exists_countP_eq_one t.items.rows
    (⟨id⟩ : ItemKey) hnd (by
      obtain ⟨r, hr, hg⟩ := hex
      exact ⟨r, hr, by
        rcases r with ⟨⟨g⟩, v⟩
        simpa using hg⟩)
  simp only [Bool.false_eq_true, if_false, Table.update, hfun, hmapfun, hcnt]

theorem update_item_schema_panic (t : Transaction) (id : GlobalId)
    (item : Item)
    (hbad : ∃ r ∈ t.items.rows, r.1.gid = id ∧
      item.schema_id ≠ r.2.schema_id) :
    t.update_item id item = .panic := by
  unfold Transaction.update_item
  have hany : t.items.rows.any (fun r =>
      r.1.gid == id && !(item.schema_id == r.2.schema_id)) = true := by
    apply List.any_eq_true.mpr
    obtain ⟨r, hr, hg, hs⟩ := hbad
    exact ⟨r, hr, by simp [hg, hs]⟩
  rw [hany]
  rfl

theorem update_item_no_panic (t : Transaction) (id : GlobalId) (item : Item)
    (hnd : (t.items.rows.map Prod.fst).Nodup)
    (hschema : ∀ r ∈ t.items.rows, r.1.gid = id →
      item.schema_id = r.2.schema_id) :
    t.update_item id item ≠ .panic := by
  unfold Transaction.update_item
  have hany : t.items.rows.any (fun r =>
      r.1.gid == id && !(item.schema_id == r.2.schema_id)) = false := by
    apply List.any_eq_false.mpr
    intro r hr
    by_cases h : r.1.gid = id
    · simp [h, hschema r hr h]
    · simp [h]
  rw [hany]
  have hfun : (fun (r : ItemKey × ItemValue) =>
      (if r.1.gid = id then some (item.into_key_value).2
       else none).isSome) = (fun r => r.1 == (⟨id⟩ : ItemKey)) := by
    funext r
    rcases r with ⟨⟨g⟩, v⟩
    by_cases h : g = id <;> simp [h]
  simp only [Bool.false_eq_true, if_false, Table.update, hfun]
  have hle := nodup_keys_at_most_one t.items.rows (⟨id⟩ : ItemKey) hnd
  have : t.items.rows.countP (fun r => r.1 == (⟨id⟩ : ItemKey)) = 0 ∨
      t.items.rows.countP (fun r => r.1 == (⟨id⟩ : ItemKey)) = 1 := by
    omega
  rcases this with hc | hc <;> rw [hc] <;> simp

theorem update_items_no_panic (t : Transaction)
    (items : List (GlobalId × Item))
    (hschema : ∀ r ∈ t.items.rows, ∀ it, items.lookup r.1.gid = some it →
      it.schema_id = r.2.schema_id) :
    t.update_items items ≠ .panic := by
  unfold Transaction.update_items
  have hany : t.items.rows.any (fun r =>
      (((items.lookup r.1.gid).map
        (fun item => !(item.schema_id == r.2.schema_id))).getD false)) =
      false := by
    apply List.any_eq_false.mpr
    intro r hr
    cases hl : items.lookup r.1.gid with
    | none => simp
    | some it => simp [hschema r hr it hl]
  rw [hany]
  simp only [Bool.false_eq_true, if_false]
  by_cases hc : (t.items.update (fun k _v =>
      (items.lookup k.gid).map (fun item => (item.into_key_value).2))).1 =
      items.length <;> simp [hc]

theorem update_items_schema_panic (t : Transaction)
    (items : List (GlobalId × Item))
    (hbad : ∃ r ∈ t.items.rows, ∃ it, items.lookup r.1.gid = some it ∧
      it.schema_id ≠ r.2.schema_id) :
    t.update_items items = .panic := by
  unfold Transaction.update_items
  have hany : t.items.rows.any (fun r =>
      (((items.lookup r.1.gid).map
        (fun item => !(item.schema_id == r.2.schema_id))).getD false)) =
      true := by
    apply List.any_eq_true.mpr
    obtain ⟨r, hr, it, hl, hs⟩ := hbad
    exact ⟨r, hr, by simp [hl, hs]⟩
  rw [hany]
  rfl

end Catalog

namespace Catalog

/-- C8: `update_item` with an id held by no live item row returns
`UnknownItem` and leaves the items table unchanged; with an id held by
exactly one live row, and a replacement whose `schema_id` equals the stored
row's, it replaces exactly that row's value and returns success, touching no
other row. -/
theorem update_item_spec :
    (∀ (t : Transaction) (id : GlobalId) (item : Item),
      (∀ r ∈ t.items.rows, r.1.gid ≠ id) →
      t.update_item id item =
        .err (.UnknownItem (GlobalId.render id)) t) ∧
    (∀ (t : Transaction) (id : GlobalId) (item : Item),
      (t.items.rows.map Prod.fst).Nodup →
      (∃ r ∈ t.items.rows, r.1.gid = id) →
      (∀ r ∈ t.items.rows, r.1.gid = id →
        item.schema_id = r.2.schema_id) →
      t.update_item id item =
        .ok () { t with items := ⟨t.items.rows.map (fun r =>
          if r.1.gid = id then (r.1, (item.into_key_value).2) else r)⟩ }) :=
  ⟨update_item_unknown, update_item_found⟩

/-- The items-table state used by the C8/C9 witnesses: one live item with id
`User 1` in schema `User 0`. -/
def c8T : Transaction :=
  { emptyT with
    items := ⟨[(⟨.User 1⟩, ⟨.User 0, "i", "sql", .User 7, []⟩)]⟩ }

/-- A replacement item that keeps the schema id of the stored row. -/
def item8 : Item := ⟨.User 1, .User 0, "i2", "sql2", .User 7, []⟩

/-- A replacement item that changes the schema id of the stored row. -/
def item8bad : Item := ⟨.User 1, .User 3, "i2", "sql2", .User 7, []⟩

/-- Witness for C8 at concrete states: updating the absent `User 9` errs
with the table unchanged; updating the live `User 1` with a schema-preserving
replacement succeeds and rewrites exactly that row. -/
theorem update_item_spec_witness :
    (c8T.update_item (.User 9) item8 =
      .err (.UnknownItem (GlobalId.render (.User 9))) c8T) ∧
    (c8T.update_item (.User 1) item8 =
      .ok () { c8T with items := ⟨c8T.items.rows.map (fun r =>
        if r.1.gid = (.User 1 : GlobalId)
        then (r.1, (item8.into_key_value).2) else r)⟩ }) :=
  ⟨update_item_spec.1 c8T (.User 9) item8 (by decide),
   update_item_spec.2 c8T (.User 1) item8 (by decide) (by decide)
     (by decide)⟩

/-- C9: `update_item` and `update_items` assert that every touched row keeps
its `schema_id` — under the precondition that every replacement preserves the
stored row's `schema_id` (and, for `update_item`, that item keys are unique)
the calls cannot panic, while a replacement that changes a touched row's
`schema_id` makes the call panic instead of returning a typed error. -/
theorem update_schema_id_assert_spec :
    (∀ (t : Transaction) (id : GlobalId) (item : Item),
      (t.items.rows.map Prod.fst).Nodup →
      (∀ r ∈ t.items.rows, r.1.gid = id →
        item.schema_id = r.2.schema_id) →
      t.update_item id item ≠ .panic) ∧
    (∀ (t : Transaction) (id : GlobalId) (item : Item),
      (∃ r ∈ t.items.rows, r.1.gid = id ∧
        item.schema_id ≠ r.2.schema_id) →
      t.update_item id item = .panic) ∧
    (∀ (t : Transaction) (items : List (GlobalId × Item)),
      (∀ r ∈ t.items.rows, ∀ it, items.lookup r.1.gid = some it →
        it.schema_id = r.2.schema_id) →
      t.update_items items ≠ .panic) ∧
    (∀ (t : Transaction) (items : List (GlobalId × Item)),
      (∃ r ∈ t.items.rows, ∃ it, items.lookup r.1.gid = some it ∧
        it.schema_id ≠ r.2.schema_id) →
      t.update_items items = .panic) :=
  ⟨update_item_no_panic, update_item_schema_panic,
   update_items_no_panic, update_items_schema_panic⟩

/-- Witness for C9 at concrete states: schema-preserving updates of `User 1`
do not panic, schema-changing ones do, both for the single-item and the bulk
entry points. -/
theorem update_schema_id_assert_spec_witness :
    (c8T.update_item (.User 1) item8 ≠ .panic) ∧
    (c8T.update_item (.User 1) item8bad = .panic) ∧
    (c8T.update_items [(.User 1, item8)] ≠ .panic) ∧
    (c8T.update_items [(.User 1, item8bad)] = .panic) :=
  ⟨update_schema_id_assert_spec.1 c8T (.User 1) item8 (by decide)
     (by decide),
   update_schema_id_assert_spec.2.1 c8T (.User 1) item8bad (by decide),
   update_schema_id_assert_spec.2.2.1 c8T [(.User 1, item8)] (by decide),
   update_schema_id_assert_spec.2.2.2 c8T [(.User 1, item8bad)]
     (by decide)⟩

end Catalog

namespace Catalog

/-! ### C10: the `DuplicateReplica` path of `insert_cluster_replica` -/

/-- C10: when the replica insert is rejected by the uniqueness machinery,
`insert_cluster_replica` looks up the owning cluster and panics if no live
cluster row has that id; a `DuplicateReplica` error is returned only when the
cluster row is live, and it carries that cluster's name (with the transaction
unchanged). -/
theorem insert_cluster_replica_duplicate_spec :
    (∀ (t : Transaction) (cid : ClusterId) (rid : ReplicaId)
      (name : String) (cfg : ReplicaConfig) (o : RoleId),
      t.cluster_replicas.insert clusterReplicaConflicts ⟨rid⟩
        ⟨cid, name, cfg, o⟩ = none →
      (t.clusters.get ⟨cid⟩ = none →
        t.insert_cluster_replica cid rid name cfg o = .panic) ∧
      (∀ c, t.clusters.get ⟨cid⟩ = some c →
        t.insert_cluster_replica cid rid name cfg o =
          .err (.DuplicateReplica name c.name) t)) ∧
    (∀ (t : Transaction) (cid : ClusterId) (rid : ReplicaId)
      (name : String) (cfg : ReplicaConfig) (o : RoleId)
      (e : SqlCatalogError) (t' : Transaction),
      t.insert_cluster_replica cid rid name cfg o = .err e t' →
      ∃ c, t.clusters.get ⟨cid⟩ = some c ∧
        e = .DuplicateReplica name c.name ∧ t' = t) := by
  constructor
  · intro t cid rid name cfg o hins
    constructor
    · intro hget
      unfold Transaction.insert_cluster_replica
      rw [hins, hget]
    · intro c hget
      unfold Transaction.insert_cluster_replica
      rw [hins, hget]
  · intro t cid rid name cfg o e t' h
    unfold Transaction.insert_cluster_replica at h
    cases hins : t.cluster_replicas.insert clusterReplicaConflicts ⟨rid⟩
        ⟨cid, name, cfg, o⟩
    · rw [hins] at h
      cases hget : t.clusters.get ⟨cid⟩ <;> rw [hget] at h
      · simp at h
      case some c =>
        simp only [TxnOut.err.injEq] at h
        exact ⟨c, rfl, h.1.symm, h.2.symm⟩
    · rw [hins] at h
      simp at h

/-- The state used by the C10 witness: live cluster `User 1` named `"c"`
holding a live replica `"r"`, and a dangling replica row for the non-live
cluster `User 2`. -/
def c10T : Transaction :=
  { emptyT with
    clusters := ⟨[(⟨.User 1⟩, ⟨"c", none, .User 7, [], ⟨.Unmanaged⟩⟩)]⟩,
    cluster_replicas := ⟨[(⟨.User 1⟩, ⟨.User 1, "r", 0, .User 7⟩),
                          (⟨.User 2⟩, ⟨.User 2, "q", 0, .User 7⟩)]⟩ }

/-- Witness for C10 at concrete states: re-inserting replica `"r"` of the
live cluster `User 1` errs with `DuplicateReplica "r" "c"`; re-inserting
replica `"q"` of the non-live cluster `User 2` panics. -/
theorem insert_cluster_replica_duplicate_spec_witness :
    (c10T.insert_cluster_replica (.User 1) (.User 5) "r" 0 (.User 7) =
      .err (.DuplicateReplica "r" "c") c10T) ∧
    (c10T.insert_cluster_replica (.User 2) (.User 6) "q" 0 (.User 7) =
      .panic) :=
  ⟨(insert_cluster_replica_duplicate_spec.1 c10T (.User 1) (.User 5) "r" 0
      (.User 7) (by decide)).2 ⟨"c", none, .User 7, [], ⟨.Unmanaged⟩⟩
      (by decide),
   (insert_cluster_replica_duplicate_spec.1 c10T (.User 2) (.User 6) "q" 0
      (.User 7) (by decide)).1 (by decide)⟩

end Catalog

namespace Catalog

/-! ### C5: `remove_items` -/

theorem contains_true_iff {α : Type} [DecidableEq α] (l : List α) (a : α) :
    l.contains a = true ↔ a ∈ l := by
  simp [List.contains, List.elem_iff]

theorem deleted_gids_nodup (t : Transaction) (ids : List GlobalId)
    (hnd : (t.items.rows.map (fun r => r.1.gid)).Nodup) :
    ((t.items.rows.filter (fun r => ids.contains r.1.gid)).map
      (fun r => r.1.gid)).Nodup :=
  (List.Sublist.map (fun r => r.1.gid)
    (List.filter_sublist t.items.rows)).nodup hnd

theorem deleted_gids_subset (t : Transaction) (ids : List GlobalId) :
    ∀ g ∈ (t.items.rows.filter (fun r => ids.contains r.1.gid)).map
      (fun r => r.1.gid), g ∈ ids := by
  intro g hg
  obtain ⟨r, hr, hrg⟩ := List.mem_map.mp hg
  have := (List.mem_filter.mp hr).2
  rw [hrg] at this
  exact (contains_true_iff ids g).mp this

theorem remove_items_ok (t : Transaction) (ids : List GlobalId)
    (hids : ids.Nodup) (hnd : (t.items.rows.map (fun r => r.1.gid)).Nodup)
    (hall : ∀ i ∈ ids, ∃ r ∈ t.items.rows, r.1.gid = i) :
    t.remove_items ids = .ok () { t with items :=
      ⟨t.items.rows.filter (fun r => !(ids.contains r.1.gid))⟩ } := by
  unfold Transaction.remove_items
  have hsub1 : ((t.items.rows.filter
      (fun r => ids.contains r.1.gid)).map (fun r => r.1.gid)).Subperm ids :=
    List.subperm_of_subset (deleted_gids_nodup t ids hnd)
      (deleted_gids_subset t ids)
  have hsub2 : ids.Subperm ((t.items.rows.filter
      (fun r => ids.contains r.1.gid)).map (fun r => r.1.gid)) := by
    apply List.subperm_of_subset hids
    intro i hi
    obtain ⟨r, hr, hrg⟩ := hall i hi
    apply List.mem_map.mpr
    refine ⟨r, List.mem_filter.mpr ⟨hr, ?_⟩, hrg⟩
    rw [hrg]
    exact (contains_true_iff ids i).mpr hi
  have hlen : (t.items.rows.filter
      (fun r => ids.contains r.1.gid)).length = ids.length := by
    have := (hsub1.antisymm hsub2).length_eq
    simpa using this
  simp only [Table.delete, if_pos hlen]

theorem remove_items_partial (t : Transaction) (ids : List GlobalId)
    (hids : ids.Nodup) (hnd : (t.items.rows.map (fun r => r.1.gid)).Nodup)
    (hmiss : ∃ i ∈ ids, ∀ r ∈ t.items.rows, r.1.gid ≠ i) :
    t.remove_items ids =
      .err (.UnknownItem (String.intercalate ", "
          (ids.map GlobalId.render)))
        { t with items :=
          ⟨t.items.rows.filter (fun r => !(ids.contains r.1.gid))⟩ } := by
  unfold Transaction.remove_items
  obtain ⟨i, hi, hnolive⟩ := hmiss
  have hlenlt : (t.items.rows.filter
      (fun r => ids.contains r.1.gid)).length < ids.length := by
    have hnd' := deleted_gids_nodup t ids hnd
    have hsub : ∀ g ∈ (t.items.rows.filter
        (fun r => ids.contains r.1.gid)).map (fun r => r.1.gid),
        g ∈ ids.erase i := by
      intro g hg
      apply (List.Nodup.mem_erase_iff hids).mpr
      refine ⟨?_, deleted_gids_subset t ids g hg⟩
      obtain ⟨r, hr, hrg⟩ := List.mem_map.mp hg
      intro hgi
      exact hnolive r (List.mem_filter.mp hr).1 (by rw [hrg, hgi])
    have hsp := List.subperm_of_subset hnd' hsub
    have hle := hsp.length_le
    have herase : (ids.erase i).length = ids.length - 1 :=
      List.length_erase_of_mem hi
    have hpos : 0 < ids.length := List.length_pos_of_mem hi
    have hmap : ((t.items.rows.filter
        (fun r => ids.contains r.1.gid)).map (fun r => r.1.gid)).length =
        (t.items.rows.filter (fun r => ids.contains r.1.gid)).length :=
      List.length_map _ _
    omega
  have hne : ¬ ((t.items.rows.filter
      (fun r => ids.contains r.1.gid)).length = ids.length) := by omega
  have hunknown : ids.filter (fun j =>
      !((t.items.rows.filter (fun r => !(ids.contains r.1.gid))).map
        (fun r => r.1.gid)).contains j) = ids := by
    apply List.filter_eq_self.mpr
    intro j hj
    simp only [Bool.not_eq_eq_eq_not, Bool.not_true, Bool.not_eq_true]
    rw [Bool.eq_false_iff]
    intro hcont
    have hjmem := (contains_true_iff _ j).mp hcont
    obtain ⟨r, hr, hrg⟩ := List.mem_map.mp hjmem
    have hkeep := (List.mem_filter.mp hr).2
    rw [hrg] at hkeep
    rw [(contains_true_iff ids j).mpr hj] at hkeep
    simp at hkeep
  simp only [Table.delete, if_neg hne, hunknown]

/-- The state used by the C5 counterexample: one live item with id
`User 1`. -/
def c5T : Transaction :=
  { emptyT with
    items := ⟨[(⟨.User 1⟩, ⟨.User 0, "i", "sql", .User 7, []⟩)]⟩ }

/-- C5 counterexample: on `c5T` (only `u1` live), `remove_items {u1, u2}`
deletes the matched row and fails, but the `UnknownItem` message is
`"u1, u2"` — it names the matched id `u1` as well — instead of naming
exactly the unmatched ids (`"u2"`): the unmatched-id set is computed against
the items table after the deletion, where the matched ids are gone too. -/
theorem remove_items_reports_matched_ids :
    c5T.remove_items [.User 1, .User 2] =
      .err (.UnknownItem "u1, u2") { c5T with items := ⟨[]⟩ } ∧
    (∃ r ∈ c5T.items.rows, r.1.gid = GlobalId.User 1) ∧
    (∀ r ∈ c5T.items.rows, r.1.gid ≠ GlobalId.User 2) ∧
    "u1, u2" ≠ String.intercalate ", "
      ([GlobalId.User 2].map GlobalId.render) := by
  refine ⟨by decide, by decide, by decide, by decide⟩

/-- C5 (amended): `remove_items` deletes every live item row whose id is in
the set and succeeds exactly when every id matched a live row; on a partial
miss it returns `UnknownItem`, the matched rows remain deleted, and the
message names every id in the requested set (not only the unmatched ones,
because the difference is taken against the post-deletion items table). -/
theorem remove_items_spec :
    (∀ (t : Transaction) (ids : List GlobalId),
      ids.Nodup → (t.items.rows.map (fun r => r.1.gid)).Nodup →
      (∀ i ∈ ids, ∃ r ∈ t.items.rows, r.1.gid = i) →
      t.remove_items ids = .ok () { t with items :=
        ⟨t.items.rows.filter (fun r => !(ids.contains r.1.gid))⟩ }) ∧
    (∀ (t : Transaction) (ids : List GlobalId),
      ids.Nodup → (t.items.rows.map (fun r => r.1.gid)).Nodup →
      (∃ i ∈ ids, ∀ r ∈ t.items.rows, r.1.gid ≠ i) →
      t.remove_items ids =
        .err (.UnknownItem (String.intercalate ", "
            (ids.map GlobalId.render)))
          { t with items :=
            ⟨t.items.rows.filter (fun r => !(ids.contains r.1.gid))⟩ }) :=
  ⟨remove_items_ok, remove_items_partial⟩

/-- Witness for C5 at concrete states: removing `{u1}` from `c5T` succeeds
and empties the table; removing `{u1, u2}` errs with the message naming both
ids while `u1`'s row is deleted. -/
theorem remove_items_spec_witness :
    (c5T.remove_items [.User 1] = .ok () { c5T with items :=
      ⟨c5T.items.rows.filter
        (fun r => !(([GlobalId.User 1]).contains r.1.gid))⟩ }) ∧
    (c5T.remove_items [.User 1, .User 2] =
      .err (.UnknownItem (String.intercalate ", "
          (([GlobalId.User 1, .User 2]).map GlobalId.render)))
        { c5T with items := ⟨c5T.items.rows.filter
          (fun r => !(([GlobalId.User 1, .User 2]).contains r.1.gid))⟩ }) :=
  ⟨remove_items_spec.1 c5T [.User 1] (by decide) (by decide) (by decide),
   remove_items_spec.2 c5T [.User 1, .User 2] (by decide) (by decide)
     (by decide)⟩

end Catalog

namespace Catalog

/-! ### C7: idempotence of the builtin migration helpers -/

theorem insert_some_rows {K V : Type} [DecidableEq K]
    (conflicts : V → V → Bool) (tb : Table K V) (k : K) (v : V)
    (tb' : Table K V) (h : tb.insert conflicts k v = some tb') :
    tb'.rows = tb.rows ++ [(k, v)] := by
  unfold Table.insert at h
  split at h
  · simp at h
  · simp only [Option.some.injEq] at h
    rw [← h]

theorem gai_preserves (t : Transaction) (key : String) (a : Nat)
    (t' : Transaction) (h : t.get_and_increment_id key = .ok a t') :
    t'.clusters = t.clusters ∧ t'.cluster_replicas = t.cluster_replicas := by
  unfold Transaction.get_and_increment_id at h
  cases hg : t.id_allocator.get ⟨key⟩ <;> rw [hg] at h
  · simp at h
  case some v =>
    dsimp only at h
    cases hc : checkedAddOne v.next_id <;> rw [hc] at h
    · simp at h
    case some nid =>
      dsimp only at h
      split at h
      · simp only [TxnOut.ok.injEq] at h
        rw [← h.2]
        exact ⟨rfl, rfl⟩
      · simp at h

theorem insert_system_cluster_ok (t : Transaction) (cid : ClusterId)
    (name : String) (privs : List MzAclItem) (cfg : ClusterConfig)
    (t2 : Transaction)
    (h : t.insert_system_cluster cid name [] privs cfg = .ok () t2) :
    t2.clusters.rows = t.clusters.rows ++
      [(⟨cid⟩, ⟨name, none, MZ_SYSTEM_ROLE_ID, privs, cfg⟩)] ∧
    t2.cluster_replicas = t.cluster_replicas := by
  unfold Transaction.insert_system_cluster Transaction.insert_cluster at h
  cases hi : t.clusters.insert clusterConflicts ⟨cid⟩
      ⟨name, none, MZ_SYSTEM_ROLE_ID, privs, cfg⟩ <;> rw [hi] at h
  · simp at h
  case some ctbl =>
    simp only [insertIntroSources, TxnOut.ok.injEq] at h
    rw [← h.2]
    exact ⟨insert_some_rows _ _ _ _ _ hi, rfl⟩

theorem insert_cluster_replica_ok (t : Transaction) (cid : ClusterId)
    (rid : ReplicaId) (name : String) (cfg : ReplicaConfig) (o : RoleId)
    (t2 : Transaction)
    (h : t.insert_cluster_replica cid rid name cfg o = .ok () t2) :
    t2.cluster_replicas.rows = t.cluster_replicas.rows ++
      [(⟨rid⟩, ⟨cid, name, cfg, o⟩)] ∧
    t2.clusters = t.clusters := by
  unfold Transaction.insert_cluster_replica at h
  cases hi : t.cluster_replicas.insert clusterReplicaConflicts ⟨rid⟩
      ⟨cid, name, cfg, o⟩ <;> rw [hi] at h
  · cases hg : t.clusters.get ⟨cid⟩ <;> rw [hg] at h <;> simp at h
  case some rtbl =>
    simp only [TxnOut.ok.injEq] at h
    rw [← h.2]
    exact ⟨insert_some_rows _ _ _ _ _ hi, rfl⟩

end Catalog

namespace Catalog

theorem clustersLoop_skip_all (names : List String) :
    ∀ (bs : List BuiltinCluster) (t : Transaction),
      (∀ bc ∈ bs, names.contains bc.name = true) →
      addBuiltinClustersLoop names bs t = .ok () t := by
  intro bs
  induction bs with
  | nil =>
    intro t _
    rfl
  | cons bc rest ih =>
    intro t hall
    simp only [addBuiltinClustersLoop]
    rw [if_pos (hall bc (List.mem_cons_self bc rest))]
    exact ih t (fun b hb => hall b (List.mem_cons_of_mem bc hb))

theorem clustersLoop_ok_facts (names : List String) :
    ∀ (bs : List BuiltinCluster) (t t1 : Transaction),
      addBuiltinClustersLoop names bs t = .ok () t1 →
      (∀ r ∈ t.clusters.rows, r ∈ t1.clusters.rows) ∧
      (∀ bc ∈ bs, names.contains bc.name = true ∨
        ∃ r ∈ t1.clusters.rows, r.2.name = bc.name) := by
  intro bs
  induction bs with
  | nil =>
    intro t t1 h
    simp only [addBuiltinClustersLoop, TxnOut.ok.injEq, true_and] at h
    rw [h]
    exact ⟨fun r hr => hr, by simp⟩
  | cons bc rest ih =>
    intro t t1 h
    simp only [addBuiltinClustersLoop] at h
    by_cases hc : names.contains bc.name = true
    · rw [if_pos hc] at h
      obtain ⟨hsub, hcov⟩ := ih t t1 h
      refine ⟨hsub, ?_⟩
      intro b hb
      rcases List.mem_cons.mp hb with rfl | hmem
      · exact Or.inl hc
      · exact hcov b hmem
    · rw [if_neg hc] at h
      cases hga : t.get_and_increment_id SYSTEM_CLUSTER_ID_ALLOC_KEY <;>
        rw [hga] at h
      · simp at h
      · simp at h
      next a t' =>
        dsimp only at h
        cases hin : t'.insert_system_cluster (.System a) bc.name []
            bc.privileges ⟨.Unmanaged⟩ <;> rw [hin] at h
        · simp at h
        · simp at h
        next u t2 =>
          dsimp only at h
          obtain ⟨hsub, hcov⟩ := ih t2 t1 h
          have hgp := (gai_preserves t SYSTEM_CLUSTER_ID_ALLOC_KEY a t'
            hga).1
          have hicl := (insert_system_cluster_ok t' (.System a) bc.name
            bc.privileges ⟨.Unmanaged⟩ t2 hin).1
          have hsub' : ∀ r ∈ t.clusters.rows, r ∈ t1.clusters.rows := by
            intro r hr
            apply hsub
            rw [hicl, hgp]
            exact List.mem_append_left _ hr
          refine ⟨hsub', ?_⟩
          intro b hb
          rcases List.mem_cons.mp hb with rfl | hmem
          · refine Or.inr ⟨(⟨.System a⟩,
              ⟨b.name, none, MZ_SYSTEM_ROLE_ID, b.privileges,
                ⟨.Unmanaged⟩⟩), ?_, rfl⟩
            apply hsub
            rw [hicl]
            exact List.mem_append_right _ (by simp)
          · exact hcov b hmem

theorem clusters_migration_idem (builtins : List BuiltinCluster)
    (t t1 : Transaction)
    (h : add_new_builtin_clusters_migration builtins t = .ok () t1) :
    add_new_builtin_clusters_migration builtins t1 = .ok () t1 := by
  unfold add_new_builtin_clusters_migration at h ⊢
  obtain ⟨hsub, hcov⟩ := clustersLoop_ok_facts _ builtins t t1 h
  apply clustersLoop_skip_all
  intro bc hbc
  have hex : ∃ r ∈ t1.clusters.rows, r.2.name = bc.name := by
    rcases hcov bc hbc with hc | hex
    · obtain ⟨r, hr, hrn⟩ := List.mem_map.mp ((contains_true_iff _ _).mp hc)
      exact ⟨r, hsub r hr, hrn⟩
    · exact hex
  obtain ⟨r, hr, hrn⟩ := hex
  exact (contains_true_iff _ _).mpr (List.mem_map.mpr ⟨r, hr, hrn⟩)

end Catalog

namespace Catalog

theorem mem_replicaNamesFor (t : Transaction) (cid : ClusterId)
    (s : String) :
    s ∈ replicaNamesFor t cid ↔
      ∃ r ∈ t.cluster_replicas.rows,
        r.2.cluster_id = cid ∧ r.2.name = s := by
  constructor
  · intro hs
    obtain ⟨r, hr, hrn⟩ := List.mem_map.mp hs
    have hf := List.mem_filter.mp hr
    exact ⟨r, hf.1, by simpa using hf.2, hrn⟩
  · intro ⟨r, hr, hrc, hrn⟩
    apply List.mem_map.mpr
    exact ⟨r, List.mem_filter.mpr ⟨hr, by simp [hrc]⟩, hrn⟩

theorem replicasLoop_skip_all (lookup : List (String × ClusterId))
    (replicas : ClusterId → List String) (config : ReplicaConfig) :
    ∀ (bs : List BuiltinClusterReplica) (t : Transaction),
      (∀ br ∈ bs, ∃ cid, lookup.lookup br.cluster_name = some cid ∧
        (replicas cid).contains br.name = true) →
      addBuiltinReplicasLoop lookup replicas config bs t = .ok () t := by
  intro bs
  induction bs with
  | nil =>
    intro t _
    rfl
  | cons br rest ih =>
    intro t hall
    obtain ⟨cid, hl, hc⟩ := hall br (List.mem_cons_self br rest)
    simp only [addBuiltinReplicasLoop]
    rw [hl]
    dsimp only
    rw [if_pos hc]
    exact ih t (fun b hb => hall b (List.mem_cons_of_mem br hb))

theorem replicasLoop_ok_facts (lookup : List (String × ClusterId))
    (replicas : ClusterId → List String) (config : ReplicaConfig) :
    ∀ (bs : List BuiltinClusterReplica) (t t1 : Transaction),
      addBuiltinReplicasLoop lookup replicas config bs t = .ok () t1 →
      (∀ r ∈ t.cluster_replicas.rows, r ∈ t1.cluster_replicas.rows) ∧
      t1.clusters = t.clusters ∧
      (∀ br ∈ bs, ∃ cid, lookup.lookup br.cluster_name = some cid ∧
        ((replicas cid).contains br.name = true ∨
          ∃ r ∈ t1.cluster_replicas.rows,
            r.2.cluster_id = cid ∧ r.2.name = br.name)) := by
  intro bs
  induction bs with
  | nil =>
    intro t t1 h
    simp only [addBuiltinReplicasLoop, TxnOut.ok.injEq, true_and] at h
    rw [h]
    exact ⟨fun r hr => hr, rfl, by simp⟩
  | cons br rest ih =>
    intro t t1 h
    simp only [addBuiltinReplicasLoop] at h
    cases hl : lookup.lookup br.cluster_name <;> rw [hl] at h
    · simp at h
    next cid =>
      dsimp only at h
      by_cases hc : (replicas cid).contains br.name = true
      · rw [if_pos hc] at h
        obtain ⟨hsub, hclus, hcov⟩ := ih t t1 h
        refine ⟨hsub, hclus, ?_⟩
        intro b hb
        rcases List.mem_cons.mp hb with rfl | hmem
        · exact ⟨cid, hl, Or.inl hc⟩
        · exact hcov b hmem
      · rw [if_neg hc] at h
        cases hga : t.get_and_increment_id SYSTEM_REPLICA_ID_ALLOC_KEY <;>
          rw [hga] at h
        · simp at h
        · simp at h
        next a t' =>
          dsimp only at h
          cases hin : t'.insert_cluster_replica cid (.System a) br.name
              config MZ_SYSTEM_ROLE_ID <;> rw [hin] at h
          · simp at h
          · simp at h
          next u t2 =>
            dsimp only at h
            obtain ⟨hsub, hclus, hcov⟩ := ih t2 t1 h
            have hgp := gai_preserves t SYSTEM_REPLICA_ID_ALLOC_KEY a t' hga
            have hirep := insert_cluster_replica_ok t' cid (.System a)
              br.name config MZ_SYSTEM_ROLE_ID t2 hin
            have hsub' : ∀ r ∈ t.cluster_replicas.rows,
                r ∈ t1.cluster_replicas.rows := by
              intro r hr
              apply hsub
              rw [hirep.1, hgp.2]
              exact List.mem_append_left _ hr
            have hclus' : t1.clusters = t.clusters := by
              rw [hclus, hirep.2, hgp.1]
            refine ⟨hsub', hclus', ?_⟩
            intro b hb
            rcases List.mem_cons.mp hb with rfl | hmem
            · refine ⟨cid, hl, Or.inr ⟨(⟨.System a⟩,
                ⟨cid, b.name, config, MZ_SYSTEM_ROLE_ID⟩), ?_, rfl, rfl⟩⟩
              apply hsub
              rw [hirep.1]
              exact List.mem_append_right _ (by simp)
            · exact hcov b hmem

theorem replicas_migration_idem (builtins : List BuiltinClusterReplica)
    (config : ReplicaConfig) (t t1 : Transaction)
    (h : add_new_builtin_cluster_replicas_migration builtins config t =
      .ok () t1) :
    add_new_builtin_cluster_replicas_migration builtins config t1 =
      .ok () t1 := by
  unfold add_new_builtin_cluster_replicas_migration at h ⊢
  obtain ⟨hsub, hclus, hcov⟩ :=
    replicasLoop_ok_facts _ _ _ builtins t t1 h
  rw [hclus]
  apply replicasLoop_skip_all
  intro br hbr
  obtain ⟨cid, hl, hdisj⟩ := hcov br hbr
  refine ⟨cid, hl, ?_⟩
  apply (contains_true_iff _ _).mpr
  apply (mem_replicaNamesFor t1 cid br.name).mpr
  rcases hdisj with hc | hex
  · obtain ⟨r, hr, hrc, hrn⟩ := (mem_replicaNamesFor t cid br.name).mp
      ((contains_true_iff _ _).mp hc)
    exact ⟨r, hsub r hr, hrc, hrn⟩
  · exact hex

end Catalog

namespace Catalog

/-- C7: the builtin migration helpers are idempotent — each inserts a builtin
row only when no live row with that builtin's name (scoped to its cluster,
for replicas) exists, so a second run against the state produced by a first
successful run inserts nothing and returns exactly the same state, and a run
against a state that already holds every builtin name changes nothing. -/
theorem builtin_migrations_idempotent :
    (∀ (builtins : List BuiltinCluster) (t t1 : Transaction),
      add_new_builtin_clusters_migration builtins t = .ok () t1 →
      add_new_builtin_clusters_migration builtins t1 = .ok () t1) ∧
    (∀ (builtins : List BuiltinClusterReplica) (config : ReplicaConfig)
      (t t1 : Transaction),
      add_new_builtin_cluster_replicas_migration builtins config t =
        .ok () t1 →
      add_new_builtin_cluster_replicas_migration builtins config t1 =
        .ok () t1) ∧
    (∀ (builtins : List BuiltinCluster) (t : Transaction),
      (∀ bc ∈ builtins, ∃ r ∈ t.clusters.rows, r.2.name = bc.name) →
      add_new_builtin_clusters_migration builtins t = .ok () t) ∧
    (∀ (builtins : List BuiltinClusterReplica) (config : ReplicaConfig)
      (t : Transaction),
      (∀ br ∈ builtins, ∃ cid,
        (t.clusters.rows.map (fun r => (r.2.name, r.1.id))).lookup
          br.cluster_name = some cid ∧
        ∃ r ∈ t.cluster_replicas.rows,
          r.2.cluster_id = cid ∧ r.2.name = br.name) →
      add_new_builtin_cluster_replicas_migration builtins config t =
        .ok () t) := by
  refine ⟨clusters_migration_idem, replicas_migration_idem, ?_, ?_⟩
  · intro builtins t hall
    unfold add_new_builtin_clusters_migration
    apply clustersLoop_skip_all
    intro bc hbc
    obtain ⟨r, hr, hrn⟩ := hall bc hbc
    exact (contains_true_iff _ _).mpr (List.mem_map.mpr ⟨r, hr, hrn⟩)
  · intro builtins config t hall
    unfold add_new_builtin_cluster_replicas_migration
    apply replicasLoop_skip_all
    intro br hbr
    obtain ⟨cid, hl, r, hr, hrc, hrn⟩ := hall br hbr
    refine ⟨cid, hl, (contains_true_iff _ _).mpr
      ((mem_replicaNamesFor t cid br.name).mpr ⟨r, hr, hrc, hrn⟩)⟩

/-- The starting state of the C7 witness for the clusters migration: empty
catalog with the system-cluster allocator at 1. -/
def c7T : Transaction :=
  { emptyT with id_allocator := ⟨[(⟨"system_cluster"⟩, ⟨1⟩)]⟩ }

/-- The state after one clusters-migration run on `c7T` with the single
builtin cluster `"mz_system"`. -/
def c7T1 : Transaction :=
  { emptyT with
    clusters := ⟨[(⟨.System 1⟩,
      ⟨"mz_system", none, .System 1, [], ⟨.Unmanaged⟩⟩)]⟩,
    id_allocator := ⟨[(⟨"system_cluster"⟩, ⟨2⟩)]⟩ }

/-- The starting state of the C7 witness for the replicas migration: one live
cluster `"c"` and the system-replica allocator at 1. -/
def c7RT : Transaction :=
  { emptyT with
    clusters := ⟨[(⟨.User 1⟩, ⟨"c", none, .User 7, [], ⟨.Unmanaged⟩⟩)]⟩,
    id_allocator := ⟨[(⟨"system_replica"⟩, ⟨1⟩)]⟩ }

/-- The state after one replicas-migration run on `c7RT` with the single
builtin replica `"r1"` of cluster `"c"`. -/
def c7RT1 : Transaction :=
  { c7RT with
    cluster_replicas := ⟨[(⟨.System 1⟩, ⟨.User 1, "r1", 0, .System 1⟩)]⟩,
    id_allocator := ⟨[(⟨"system_replica"⟩, ⟨2⟩)]⟩ }

/-- Witness for C7 at concrete states: one clusters-migration run on `c7T`
produces `c7T1`, and the second run returns `c7T1` unchanged; likewise for
the replicas migration from `c7RT` to `c7RT1`. -/
theorem builtin_migrations_idempotent_witness :
    (add_new_builtin_clusters_migration [⟨"mz_system", []⟩] c7T1 =
      .ok () c7T1) ∧
    (add_new_builtin_cluster_replicas_migration [⟨"c", "r1"⟩] 0 c7RT1 =
      .ok () c7RT1) :=
  ⟨builtin_migrations_idempotent.1 [⟨"mz_system", []⟩] c7T c7T1 (by decide),
   builtin_migrations_idempotent.2.1 [⟨"c", "r1"⟩] 0 c7RT c7RT1
     (by decide)⟩

end Catalog
